import Mathlib

/-!
# Verification of the cardiology-ai-agent routing workflow

Shallow embedding of the deterministic parts of the repository:

* `src/tools/appointment_system.py` — the in-memory appointment calendar
  (`check_availability`, `book_appointment`, `cancel_appointment`,
  `reschedule_appointment`).  Python dicts preserve insertion order, so they
  are modelled as association lists; mutating methods return the new calendar.
* `src/agents/triage_agent.py` — the symptom-analysis tool and the internal
  triage StateGraph (`analyze_symptoms -> assess_risk -> determine_urgency ->
  escalate_emergency / provide_recommendations / handle_error`).
* `src/agents/supervisor.py` — `_parse_routing_response` and the supervisor
  node.
* `src/workflow.py` — the outer routing graph and its conditional edge
  functions (`_route_from_supervisor`, `_route_from_triage`,
  `_route_from_appointment`).

Modelling conventions: Python floats are embedded as rationals (all decisions
compare constants such as 6.5, 0.5, 9 that are nowhere near representation
error); an LLM call is an oracle, represented by a `Bool` flag ("the call
returned without raising"; its text reaches only free-text fields) or, for the
supervisor, by the reply string itself.  The session state is projected onto
the fields that the routing logic and the verified claims read; the appended
chat messages keep only an abbreviated constant content, since no routing
decision reads message text other than `messages[-1]` at triage/supervisor
entry and message-list emptiness.
-/

namespace CardioAgent

/-! ## Appointment calendar (src/tools/appointment_system.py) -/

/-- One day of the mock availability table: `availability[date]` in Python. -/
structure DayAvailability where
  slots : List String
  emergency_slots : List String
deriving Repr, DecidableEq

/-- A calendar entry, as built by `book_appointment` (the `created_at`
timestamp is dropped: nothing reads it). -/
structure Appointment where
  appointment_id : String
  patient_id : String
  date : String
  time : String
  appt_type : String
  notes : String
  status : String
deriving Repr, DecidableEq

/-- The mutable state of `AppointmentSystemTool`: the availability table and
the `self.appointments` dict (date -> list of appointments), both as
insertion-ordered association lists. -/
structure Calendar where
  availability : List (String × DayAvailability)
  appointments : List (String × List Appointment)
deriving Repr, DecidableEq

/-- Python dict lookup (first binding of the key). -/
def dictGet {β : Type} : List (String × β) → String → Option β
  | [], _ => none
  | (k, v) :: rest, key => if k = key then some v else dictGet rest key

/-- `self.appointments.get(date, [])`. -/
def apptsAt (c : Calendar) (date : String) : List Appointment :=
  (dictGet c.appointments date).getD []

/-- Result of `check_availability` (the echoed `date` field is dropped). -/
structure AvailabilityResult where
  available : Bool
  slots : List String
deriving Repr, DecidableEq

/-- `AppointmentSystemTool.check_availability`. -/
def check_availability (c : Calendar) (date : String) (appointment_type : String) :
    AvailabilityResult :=
  match dictGet c.availability date with
  | none => { available := false, slots := [] }
  | some day =>
      let base := day.slots ++
        (if appointment_type = "emergency" ∨ appointment_type = "urgent" then
          day.emergency_slots else [])
      let booked := (apptsAt c date).map (fun a => a.time)
      let avail := base.filter (fun t => !(booked.contains t))
      { available := !avail.isEmpty, slots := avail }

/-- Result dict of `book_appointment` / `reschedule_appointment`
(success and failure shapes merged into one record with optional fields). -/
structure BookingResult where
  success : Bool
  message : String
  alternative_slots : List String
  appointment_id : Option String
  appointment : Option Appointment
deriving Repr, DecidableEq

/-- Python `s.replace(pat, "")` as used in the appointment id format string:
both call sites delete every occurrence of a one-character separator. -/
def removeAll (s : String) (sep : Char) : String :=
  String.mk (s.toList.filter (fun ch => !(ch == sep)))

/-- The appointment id string `f"CARD-{date.replace('-','')}-{time.replace(':','')}-{patient_id}"`. -/
def mkAppointmentId (date time patient_id : String) : String :=
  "CARD-" ++ removeAll date '-' ++ "-" ++ removeAll time ':' ++ "-" ++ patient_id

/-- `self.appointments[date].append(...)`, creating the key at the end of the
dict when absent (Python insertion order). -/
def addAppointment : List (String × List Appointment) → String → Appointment →
    List (String × List Appointment)
  | [], date, a => [(date, [a])]
  | (k, v) :: rest, date, a =>
      if k = date then (k, v ++ [a]) :: rest else (k, v) :: addAppointment rest date a

/-- `AppointmentSystemTool.book_appointment`; returns the result dict together
with the calendar after the call. -/
def book_appointment (c : Calendar) (patient_id date time appointment_type notes : String) :
    BookingResult × Calendar :=
  let av := check_availability c date appointment_type
  if !av.available ∨ ¬ time ∈ av.slots then
    ({ success := false, message := "Requested time slot is not available",
       alternative_slots := av.slots.take 3, appointment_id := none,
       appointment := none }, c)
  else
    let aid := mkAppointmentId date time patient_id
    let a : Appointment :=
      { appointment_id := aid, patient_id := patient_id, date := date, time := time,
        appt_type := appointment_type, notes := notes, status := "confirmed" }
    ({ success := true,
       message := "Appointment confirmed for " ++ date ++ " at " ++ time,
       alternative_slots := [], appointment_id := some aid, appointment := some a },
      { c with appointments := addAppointment c.appointments date a })

/-- Result dict of `cancel_appointment`. -/
structure CancelResult where
  success : Bool
  message : String
  cancelled_appointment : Option Appointment
deriving Repr, DecidableEq

/-- `appointments.pop(i)` at the first index whose id matches. -/
def removeFirstAppt : List Appointment → String → Option (Appointment × List Appointment)
  | [], _ => none
  | a :: rest, aid =>
      if a.appointment_id = aid then some (a, rest)
      else (removeFirstAppt rest aid).map (fun p => (p.1, a :: p.2))

/-- The double loop of `cancel_appointment`: first date (in insertion order)
holding a matching appointment, first match within that date. -/
def cancelFrom : List (String × List Appointment) → String →
    Option (Appointment × List (String × List Appointment))
  | [], _ => none
  | (k, v) :: rest, aid =>
      match removeFirstAppt v aid with
      | some (a, v2) => some (a, (k, v2) :: rest)
      | none => (cancelFrom rest aid).map (fun p => (p.1, (k, v) :: p.2))

/-- `AppointmentSystemTool.cancel_appointment`. -/
def cancel_appointment (c : Calendar) (appointment_id : String) :
    CancelResult × Calendar :=
  match cancelFrom c.appointments appointment_id with
  | some (a, appts2) =>
      ({ success := true, message := "Appointment cancelled successfully",
         cancelled_appointment := some a }, { c with appointments := appts2 })
  | none =>
      ({ success := false, message := "Appointment not found",
         cancelled_appointment := none }, c)

/-- The lookup loop of `reschedule_appointment`: the inner `break` leaves the
outer date loop running, so a match in a later date overwrites an earlier one
(last date in insertion order wins, first match within a date). -/
def findAppointment : List (String × List Appointment) → String → Option Appointment
  | [], _ => none
  | (_, v) :: rest, aid =>
      match findAppointment rest aid with
      | some a => some a
      | none => v.find? (fun a => a.appointment_id == aid)

/-- `AppointmentSystemTool.reschedule_appointment` (cancel, then book the new
slot; on cancel failure the cancel result dict is returned, rendered here in
the merged result record). -/
def reschedule_appointment (c : Calendar) (appointment_id new_date new_time : String) :
    BookingResult × Calendar :=
  match findAppointment c.appointments appointment_id with
  | none =>
      ({ success := false, message := "Appointment not found",
         alternative_slots := [], appointment_id := none, appointment := none }, c)
  | some existing =>
      let pr := cancel_appointment c appointment_id
      if !pr.1.success then
        ({ success := false, message := pr.1.message, alternative_slots := [],
           appointment_id := none, appointment := none }, pr.2)
      else
        book_appointment pr.2 existing.patient_id new_date new_time
          existing.appt_type existing.notes

/-- All appointment ids present in a calendar. -/
def allIds (l : List (String × List Appointment)) : List String :=
  l.foldr (fun p acc => p.2.map (fun a => a.appointment_id) ++ acc) []

/-- Number of confirmed entries for a patient at a (date, time) slot. -/
def countAt (c : Calendar) (patient_id date time : String) : Nat :=
  ((apptsAt c date).filter
    (fun a => a.patient_id == patient_id && a.time == time && a.status == "confirmed")).length

/-- Number of entries carrying a given appointment id. -/
def countId (l : List (String × List Appointment)) (aid : String) : Nat :=
  (allIds l).count aid

/-! ## Symptom analysis (src/agents/triage_agent.py, `symptom_analysis_tool`) -/

/-- `a.isPrefixOf b` for char lists, written out. -/
def startsList : List Char → List Char → Bool
  | [], _ => true
  | _ :: _, [] => false
  | a :: as, b :: bs => a == b && startsList as bs

/-- Substring test on char lists (needle, haystack). -/
def subListOf : List Char → List Char → Bool
  | [], _ => true
  | n :: ns, [] => false && startsList (n :: ns) []
  | n, c :: rest => startsList n (c :: rest) || subListOf n rest

/-- The Python `needle in hay` substring test. -/
def containsStr (hay needle : String) : Bool :=
  subListOf needle.toList hay.toList

/-- Python `str.lower` (character-wise; the keyword lists are ASCII). -/
def lowerStr (s : String) : String :=
  String.mk (s.toList.map Char.toLower)

/-- Python `str.upper` (character-wise; the keyword lists are ASCII). -/
def upperStr (s : String) : String :=
  String.mk (s.toList.map Char.toUpper)

/-- Python `str.strip` on char lists. -/
def trimList (l : List Char) : List Char :=
  ((l.dropWhile Char.isWhitespace).reverse.dropWhile Char.isWhitespace).reverse

/-- Python `str.strip`. -/
def trimStr (s : String) : String :=
  String.mk (trimList s.toList)

/-- Drop the first `n` characters of a string. -/
def dropStr (s : String) (n : Nat) : String :=
  String.mk (s.toList.drop n)

/-- Python `str.startswith`. -/
def startsWithStr (s pre : String) : Bool :=
  startsList pre.toList s.toList

/-- Split a char list at every newline (Python `str.split("\n")`). -/
def splitLinesList : List Char → List (List Char)
  | [] => [[]]
  | c :: rest =>
      let r := splitLinesList rest
      if c == '\n' then [] :: r
      else
        match r with
        | [] => [[c]]
        | h :: t => (c :: h) :: t

/-- Python `response.split("\n")`. -/
def splitLines (s : String) : List String :=
  (splitLinesList s.toList).map String.mk

def emergency_keywords : List String :=
  ["crushing chest pain", "severe chest pressure", "chest pain radiating",
   "severe shortness of breath", "unconscious", "loss of consciousness",
   "severe palpitations", "chest pain with sweating"]

def urgent_keywords : List String :=
  ["chest discomfort", "shortness of breath", "palpitations",
   "lightheaded", "dizzy", "unusual fatigue"]

/-- Return dict of `symptom_analysis_tool`. -/
structure SymptomAnalysis where
  severity_level : String
  severity_score : ℚ
  identified_symptoms : List String
  emergency_indicators : List String
  assessment_confidence : ℚ
  requires_immediate_attention : Bool
deriving Repr, DecidableEq

/-- `symptom_analysis_tool(symptoms_description)`. -/
def symptom_analysis_tool (symptoms_description : String) : SymptomAnalysis :=
  let text_lower := lowerStr symptoms_description
  let emergency_score := (emergency_keywords.filter (fun k => containsStr text_lower k)).length
  let urgent_score := (urgent_keywords.filter (fun k => containsStr text_lower k)).length
  let lvl_score : String × ℚ :=
    if emergency_score > 0 then ("emergency", min 10 (8 + (emergency_score : ℚ)))
    else if urgent_score > 1 then ("urgent", min 8 (5 + (urgent_score : ℚ)))
    else if urgent_score > 0 then ("moderate", min 6 (3 + (urgent_score : ℚ)))
    else ("routine", 2)
  { severity_level := lvl_score.1
    severity_score := lvl_score.2
    identified_symptoms :=
      (if containsStr text_lower "chest" then ["chest symptoms"] else []) ++
      (if containsStr text_lower "breath" || containsStr text_lower "shortness" then
        ["dyspnea"] else []) ++
      (if containsStr text_lower "palpitations" || containsStr text_lower "heart" then
        ["cardiac rhythm symptoms"] else []) ++
      (if containsStr text_lower "dizzy" || containsStr text_lower "lightheaded" then
        ["dizziness"] else [])
    emergency_indicators := emergency_keywords.filter (fun k => containsStr text_lower k)
    assessment_confidence := 4/5
    requires_immediate_attention := lvl_score.1 == "emergency" || lvl_score.1 == "urgent" }

/-- The constant reply of `patient_risk_assessment_tool` (a deterministic stub). -/
structure RiskAssessmentData where
  risk_factors : List String
  risk_score : ℚ
  assessment_confidence : ℚ
deriving Repr, DecidableEq

def patient_risk_assessment_tool : RiskAssessmentData :=
  { risk_factors := ["hypertension", "diabetes", "family_history"]
    risk_score := 13/2
    assessment_confidence := 17/20 }

/-- The `triage_result` dict assembled by `_determine_urgency_node`. -/
structure TriageResult where
  urgency_level : String
  severity_score : ℚ
  identified_symptoms : List String
  emergency_indicators : List String
  risk_factors : List String
  confidence_score : ℚ
deriving Repr, DecidableEq

/-! ## Session state (src/models/state.py, projected)

`AgentState` projected onto the fields read or written by the routing logic
and by the verified claims.  Free-text fields (clinical narratives, summaries,
session context) are omitted; appended chat messages keep a constant
abbreviated content. -/

structure WState where
  messages : List String
  patient_id : Option String
  current_agent : Option String
  next_agent : Option String
  next_action : Option String
  urgency_level : Option String
  escalation_needed : Bool
  appointment_scheduled : Bool
  requires_human_review : Bool
  workflow_complete : Bool
  error : Option String
  error_handled : Bool
  emergency_activated : Bool
  confirmation_sent : Bool
  symptom_analysis : Option SymptomAnalysis
  risk_assessment : Option RiskAssessmentData
  combined_risk_score : Option ℚ
  triage_result : Option TriageResult
  appointment_analysis_confidence : Option ℚ
  availability_available : Option Bool
  booking_confirmed : Option Bool
  documentation_complete : Option Bool
  tools_used : List String
deriving Repr, DecidableEq

/-- The initial state built by `CardiologyWorkflow.process_patient_query`
(keys absent from the Python dict start as `none` / `false`). -/
def initial_state (query : String) (patient_id : Option String) : WState :=
  { messages := [query], patient_id := patient_id, current_agent := none,
    next_agent := none, next_action := none, urgency_level := none,
    escalation_needed := false, appointment_scheduled := false,
    requires_human_review := false, workflow_complete := false, error := none,
    error_handled := false, emergency_activated := false,
    confirmation_sent := false, symptom_analysis := none, risk_assessment := none,
    combined_risk_score := none, triage_result := none,
    appointment_analysis_confidence := none, availability_available := none,
    booking_confirmed := none, documentation_complete := none, tools_used := [] }

/-! ## Triage agent internal graph (src/agents/triage_agent.py) -/

/-- `_analyze_symptoms_node`; `llm_ok` is the oracle flag for the clinical
LLM call (its text reaches only the free-text `clinical_assessment`). -/
def analyze_symptoms (llm_ok : Bool) (s : WState) : WState :=
  match s.messages.getLast? with
  | none =>
      { s with error := some "No symptoms to analyze", next_action := some "error" }
  | some symptoms_text =>
      if llm_ok then
        { s with symptom_analysis := some (symptom_analysis_tool symptoms_text),
                 current_agent := some "triage_agent",
                 tools_used := s.tools_used ++ ["symptom_analysis_tool", "llm_assessment"],
                 next_action := some "assess_risk",
                 messages := s.messages ++ ["Analyzing symptoms..."] }
      else
        { s with error := some "Symptom analysis failed", next_action := some "error" }

/-- `_assess_risk_node` (the risk tool is a deterministic stub, so the node
cannot fail). -/
def assess_risk (s : WState) : WState :=
  let base_score : ℚ :=
    match s.symptom_analysis with
    | some sa => sa.severity_score
    | none => 5
  let risk_multiplier : ℚ := patient_risk_assessment_tool.risk_score / 5
  let combined := min 10 (base_score * risk_multiplier)
  { s with risk_assessment := some patient_risk_assessment_tool,
           combined_risk_score := some combined,
           tools_used := s.tools_used ++ ["patient_risk_assessment_tool"],
           next_action := some "determine_urgency",
           messages := s.messages ++ ["Risk assessment complete."] }

/-- `_determine_urgency_node`. -/
def determine_urgency (s : WState) : WState :=
  let emergency_indicators :=
    match s.symptom_analysis with
    | some sa => sa.emergency_indicators
    | none => []
  let severity_level :=
    match s.symptom_analysis with
    | some sa => sa.severity_level
    | none => "routine"
  let combined_risk_score : ℚ := (s.combined_risk_score).getD 5
  let urgency_action : String × String :=
    if !emergency_indicators.isEmpty || decide (combined_risk_score ≥ 9) ||
        severity_level == "emergency" then
      ("emergency", "escalate_emergency")
    else if decide (combined_risk_score ≥ 7) || severity_level == "urgent" then
      ("urgent", "provide_recommendations")
    else if decide (combined_risk_score ≥ 5) || severity_level == "moderate" then
      ("moderate", "provide_recommendations")
    else
      ("routine", "provide_recommendations")
  let tr : TriageResult :=
    { urgency_level := urgency_action.1
      severity_score := combined_risk_score
      identified_symptoms :=
        match s.symptom_analysis with
        | some sa => sa.identified_symptoms
        | none => []
      emergency_indicators := emergency_indicators
      risk_factors :=
        match s.risk_assessment with
        | some r => r.risk_factors
        | none => []
      confidence_score :=
        min (match s.symptom_analysis with
             | some sa => sa.assessment_confidence
             | none => 4/5)
            (match s.risk_assessment with
             | some r => r.assessment_confidence
             | none => 4/5) }
  { s with triage_result := some tr,
           urgency_level := some urgency_action.1,
           escalation_needed :=
             urgency_action.1 == "emergency" || urgency_action.1 == "urgent",
           next_action := some urgency_action.2,
           messages := s.messages ++ ["Triage complete"] }

/-- `_escalate_emergency_node` (the escalation tool is a deterministic stub,
so the `except` branch is unreachable). -/
def escalate_emergency (s : WState) : WState :=
  { s with emergency_activated := true,
           requires_human_review := true,
           workflow_complete := true,
           next_agent := some "END",
           tools_used := s.tools_used ++ ["emergency_escalation_tool"],
           messages := s.messages ++ ["EMERGENCY PROTOCOL ACTIVATED"] }

/-- `_provide_recommendations_node`. -/
def provide_recommendations (s : WState) : WState :=
  let urgency_level :=
    match s.triage_result with
    | some tr => tr.urgency_level
    | none => "routine"
  { s with workflow_complete := true,
           next_agent :=
             some (if urgency_level = "urgent" ∨ urgency_level = "moderate" then
                     "appointment_agent"
                   else "virtual_assistant_agent"),
           messages := s.messages ++ ["Triage recommendations"] }

/-- `_handle_triage_error_node`. -/
def handle_triage_error (s : WState) : WState :=
  { s with error_handled := true,
           requires_human_review := true,
           workflow_complete := true,
           next_agent := some "virtual_assistant_agent",
           messages := s.messages ++ ["TRIAGE ASSESSMENT ERROR"] }

/-- One full run of the compiled triage StateGraph: the entry node followed by
the conditional edges `_route_after_symptom_analysis`,
`_route_after_risk_assessment` and `_route_after_urgency_determination`
(each sends to `handle_error` whenever `state.get("error")` is truthy). -/
def triage_agent_step (llm_ok : Bool) (s : WState) : WState :=
  let s1 := analyze_symptoms llm_ok s
  if s1.error.isSome then handle_triage_error s1
  else
    let s2 := assess_risk s1
    if s2.error.isSome then handle_triage_error s2
    else
      let s3 := determine_urgency s2
      if s3.error.isSome then handle_triage_error s3
      else if s3.next_action == some "escalate_emergency" then escalate_emergency s3
      else provide_recommendations s3

/-! ## Supervisor (src/agents/supervisor.py) -/

/-- The float literal 0.5 as an exact rational in constructor form (so that
the parse function below evaluates under the kernel). -/
def ratHalf : ℚ := ⟨1, 2, by decide, by decide⟩

/-- The float literal 0.9 as an exact rational in constructor form. -/
def ratNineTenths : ℚ := ⟨9, 10, by decide, by decide⟩

/-- The float literal 0.7 as an exact rational in constructor form. -/
def ratSevenTenths : ℚ := ⟨7, 10, by decide, by decide⟩

def valid_agents : List String :=
  ["TRIAGE_AGENT", "APPOINTMENT_AGENT", "VIRTUAL_ASSISTANT", "CLINICAL_DOCS"]

def valid_urgencies : List String := ["EMERGENCY", "URGENT", "ROUTINE"]

/-- The structured routing decision built by `_parse_routing_response`. -/
structure RoutingDecision where
  agent : String
  urgency : String
  reasoning : String
  context : String
  confidence : ℚ
deriving Repr, DecidableEq

/-- The initial defaults of `_parse_routing_response`. -/
def default_decision : RoutingDecision :=
  { agent := "VIRTUAL_ASSISTANT", urgency := "ROUTINE",
    reasoning := "Default routing due to parsing error", context := "",
    confidence := ratHalf }

/-- One iteration of the line loop in `_parse_routing_response`; after
`line.startswith("AGENT:")` the first colon sits at index 5, so
`line.split(":", 1)[1]` equals `line.drop 6` (similarly for the other tags). -/
def parse_decision_line (d : RoutingDecision) (raw_line : String) : RoutingDecision :=
  let line := trimStr raw_line
  if startsWithStr line "AGENT:" then
    let agent := trimStr (dropStr line 6)
    if agent ∈ valid_agents then { d with agent := agent, confidence := ratNineTenths }
    else d
  else if startsWithStr line "URGENCY:" then
    let urgency := trimStr (dropStr line 8)
    if urgency ∈ valid_urgencies then { d with urgency := urgency } else d
  else if startsWithStr line "REASONING:" then
    { d with reasoning := trimStr (dropStr line 10) }
  else if startsWithStr line "CONTEXT:" then
    { d with context := trimStr (dropStr line 8) }
  else d

def fallback_triage_words : List String :=
  ["CHEST PAIN", "EMERGENCY", "URGENT", "BREATHING"]

def fallback_appointment_words : List String :=
  ["APPOINTMENT", "SCHEDULE", "RESCHEDULE"]

def fallback_docs_words : List String :=
  ["DOCUMENT", "RECORD", "REPORT", "TEST"]

/-- `SupervisorAgent._parse_routing_response`: the tag-line loop followed by
the keyword fallback for unstructured replies. -/
def parse_routing_response (response : String) : RoutingDecision :=
  let d := (splitLines (trimStr response)).foldl parse_decision_line default_decision
  if d.agent = "VIRTUAL_ASSISTANT" ∧ d.confidence = ratHalf then
    let response_upper := upperStr response
    if fallback_triage_words.any (fun w => containsStr response_upper w) then
      { d with agent := "TRIAGE_AGENT", urgency := "URGENT", confidence := ratSevenTenths }
    else if fallback_appointment_words.any (fun w => containsStr response_upper w) then
      { d with agent := "APPOINTMENT_AGENT", confidence := ratSevenTenths }
    else if fallback_docs_words.any (fun w => containsStr response_upper w) then
      { d with agent := "CLINICAL_DOCS", confidence := ratSevenTenths }
    else d
  else d

/-- `SupervisorAgent._create_error_response` (the error text goes into
`session_context.error`, not into the top-level `error` field). -/
def supervisor_error (s : WState) : WState :=
  { s with current_agent := some "supervisor",
           next_agent := some "END",
           requires_human_review := true,
           messages := s.messages ++ ["Supervisor Error"] }

/-- `SupervisorAgent.__call__`: error response on an empty message list or a
raising LLM chain (`oracle_reply = none`); otherwise the parsed decision is
written into the state. -/
def supervisor_step (oracle_reply : Option String) (s : WState) : WState :=
  if s.messages.isEmpty then supervisor_error s
  else
    match oracle_reply with
    | none => supervisor_error s
    | some reply =>
        let d := parse_routing_response reply
        { s with current_agent := some "supervisor",
                 next_agent := some d.agent,
                 urgency_level := some d.urgency,
                 messages := s.messages ++ ["Routing decision"] }

/-! ## Appointment agent internal graph (src/agents/appointment_agent.py) -/

/-- `_analyze_appointment_request_node` (the LLM analysis is parsed into a
constant structure with `confidence_level = 0.9`). -/
def analyze_appointment_request (llm_ok : Bool) (s : WState) : WState :=
  match s.messages.getLast? with
  | none =>
      { s with error := some "No appointment request to analyze",
               current_agent := some "appointment_agent", next_action := some "error" }
  | some _ =>
      if llm_ok then
        { s with appointment_analysis_confidence := some (9/10),
                 current_agent := some "appointment_agent",
                 next_action := some "check_availability",
                 tools_used := s.tools_used ++ ["llm_analysis"],
                 messages := s.messages ++ ["Analyzing your appointment request"] }
      else
        { s with error := some "Request analysis failed",
                 current_agent := some "appointment_agent", next_action := some "error" }

/-- `_check_availability_node`: `check_availability_tool` reports
`available = True` for every urgency level, so the no-slot error branch is
unreachable. -/
def check_availability_node (s : WState) : WState :=
  { s with availability_available := some true,
           next_action := some "book_appointment",
           tools_used := s.tools_used ++ ["check_availability_tool"],
           messages := s.messages ++ ["Found available slot"] }

/-- `_book_appointment_node`: `book_appointment_tool` always returns
`status = "confirmed"` (the uuid-based id reaches only free-text fields). -/
def book_appointment_node (s : WState) : WState :=
  { s with booking_confirmed := some true,
           appointment_scheduled := true,
           next_action := some "send_confirmation",
           tools_used := s.tools_used ++ ["book_appointment_tool"],
           messages := s.messages ++ ["Appointment successfully booked"] }

/-- `_send_confirmation_node`. -/
def send_confirmation_node (s : WState) : WState :=
  { s with confirmation_sent := true,
           workflow_complete := true,
           next_agent := some "virtual_assistant_agent",
           tools_used := s.tools_used ++ ["notify_patient_tool"],
           messages := s.messages ++ ["APPOINTMENT CONFIRMATION COMPLETE"] }

/-- `_handle_error_node` of the appointment agent. -/
def handle_appointment_error (s : WState) : WState :=
  { s with error_handled := true,
           requires_human_review := true,
           workflow_complete := true,
           next_agent := some "virtual_assistant_agent",
           messages := s.messages ++ ["APPOINTMENT SCHEDULING ERROR"] }

/-- One full run of the compiled appointment StateGraph with its three
conditional edges (`_route_after_analysis`, `_route_after_availability_check`,
`_route_after_booking`). -/
def appointment_agent_step (llm_ok : Bool) (s : WState) : WState :=
  let s1 := analyze_appointment_request llm_ok s
  if s1.error.isSome then handle_appointment_error s1
  else if decide ((s1.appointment_analysis_confidence).getD 0 < 1/2) then
    handle_appointment_error s1
  else
    let s2 := check_availability_node s1
    if s2.error.isSome then handle_appointment_error s2
    else if !((s2.availability_available).getD false) then handle_appointment_error s2
    else
      let s3 := book_appointment_node s2
      if s3.error.isSome then handle_appointment_error s3
      else if !(s3.booking_confirmed == some true) then handle_appointment_error s3
      else send_confirmation_node s3

/-! ## Virtual assistant internal graph (src/agents/virtual_assistant.py) -/

/-- `follow_up_needed` of `lifestyle_recommendation_tool`: true iff some
generated recommendation has high priority. -/
def lifestyle_follow_up_needed (risk_factors : List String) : Bool :=
  (risk_factors.contains "sedentary" || risk_factors.contains "obesity") ||
  (risk_factors.contains "diabetes" || risk_factors.contains "hypertension") ||
  risk_factors.contains "medication_nonadherence"

/-- `_create_summary_node`. -/
def create_summary_node (s : WState) : WState :=
  { s with workflow_complete := true,
           next_agent := some "END",
           messages := s.messages ++ ["SESSION SUMMARY"] }

/-- `_handle_assistant_error_node` (sets no human-review flag). -/
def handle_assistant_error (s : WState) : WState :=
  { s with error_handled := true,
           workflow_complete := true,
           next_agent := some "END",
           messages := s.messages ++ ["VIRTUAL ASSISTANT ERROR"] }

/-- One full run of the compiled virtual-assistant StateGraph.  All its tools
are deterministic stubs and no node calls the LLM, so the agent is
deterministic; a pre-set `error` routes to the error terminal after
`analyze_context`, otherwise education, recommendations, the optional
tracking node and the summary run in order. -/
def virtual_assistant_step (s : WState) : WState :=
  let priority_level : String :=
    if s.urgency_level == some "emergency" || s.urgency_level == some "urgent" then "high"
    else if s.urgency_level == some "moderate" then "medium"
    else "routine"
  let s1 :=
    { s with current_agent := some "virtual_assistant_agent",
             next_action := some "provide_education",
             messages := s.messages ++ ["Analyzing your needs..."] }
  if s1.error.isSome then handle_assistant_error s1
  else
    let risk_factors :=
      match s1.triage_result with
      | some tr => tr.risk_factors
      | none => []
    let needs_tracking :=
      (priority_level == "high" || priority_level == "medium") ||
      lifestyle_follow_up_needed risk_factors
    let s2 :=
      { s1 with tools_used := s1.tools_used ++ ["patient_education_tool"],
                next_action := some "generate_recommendations",
                messages := s1.messages ++ ["Patient education"] }
    let s3 :=
      { s2 with tools_used := s2.tools_used ++ ["lifestyle_recommendation_tool"],
                next_action := some (if needs_tracking then "setup_tracking"
                                     else "create_summary"),
                messages := s2.messages ++ ["PERSONALIZED RECOMMENDATIONS"] }
    let s4 :=
      if needs_tracking then
        { s3 with tools_used := s3.tools_used ++ ["wellness_tracking_tool"],
                  next_action := some "create_summary",
                  messages := s3.messages ++ ["WELLNESS TRACKING PLAN"] }
      else s3
    create_summary_node s4

/-! ## Clinical documentation agent (src/agents/clinical_docs_agent.py) -/

/-- `_handle_documentation_error_node`. -/
def handle_documentation_error (s : WState) : WState :=
  { s with error_handled := true,
           documentation_complete := some false,
           workflow_complete := true,
           next_agent := some "END",
           messages := s.messages ++ ["CLINICAL DOCUMENTATION ERROR"] }

/-- One full run of the compiled documentation StateGraph: gathering only
reformats existing state; the assessment and treatment-plan nodes call the
LLM (oracle flag `llm_ok`); both terminals complete the workflow. -/
def clinical_docs_step (llm_ok : Bool) (s : WState) : WState :=
  if s.error.isSome then handle_documentation_error s
  else if !llm_ok then
    handle_documentation_error { s with error := some "Assessment generation failed" }
  else
    { s with documentation_complete := some true,
             workflow_complete := true,
             next_agent := some "END",
             messages := s.messages ++ ["Clinical documentation completed successfully."] }

/-! ## Outer workflow (src/workflow.py) -/

/-- `CardiologyWorkflow._completion_node`. -/
def completion_node (s : WState) : WState :=
  { s with workflow_complete := true,
           current_agent := some "workflow_complete",
           messages := s.messages ++ ["Cardiology AI Consultation Complete"] }

/-- `CardiologyWorkflow._route_from_supervisor`. -/
def route_from_supervisor (s : WState) : String :=
  match s.next_agent with
  | some a =>
      if a ∈ ["triage_agent", "appointment_agent", "virtual_assistant_agent",
              "clinical_docs_agent"] then a
      else "end"
  | none => "end"

/-- `CardiologyWorkflow._route_from_triage`. -/
def route_from_triage (s : WState) : String :=
  if s.urgency_level == some "emergency" then "emergency_end"
  else if s.escalation_needed || s.urgency_level == some "urgent" then
    "appointment_agent"
  else if s.next_agent == some "virtual_assistant_agent" then
    "virtual_assistant_agent"
  else "complete"

/-- `CardiologyWorkflow._route_from_appointment`. -/
def route_from_appointment (s : WState) : String :=
  if s.appointment_scheduled then "virtual_assistant_agent" else "complete"

/-- The nodes of the compiled outer graph
(`CardiologyWorkflow._build_enhanced_workflow`); `terminalEnd` is LangGraph
END. -/
inductive WNode where
  | supervisor
  | triage
  | appointment
  | virtualAssistant
  | clinicalDocs
  | complete
  | terminalEnd
deriving Repr, DecidableEq

/-- The edge relation of the compiled outer graph: the conditional edge
mappings registered in `_build_enhanced_workflow` applied to the routing
functions, plus the fixed edges (`none` would be a LangGraph routing error,
shown unreachable below). -/
def next_node (n : WNode) (s : WState) : Option WNode :=
  match n with
  | .supervisor =>
      match route_from_supervisor s with
      | "triage_agent" => some .triage
      | "appointment_agent" => some .appointment
      | "virtual_assistant_agent" => some .virtualAssistant
      | "clinical_docs_agent" => some .clinicalDocs
      | "end" => some .terminalEnd
      | _ => none
  | .triage =>
      match route_from_triage s with
      | "appointment_agent" => some .appointment
      | "virtual_assistant_agent" => some .virtualAssistant
      | "emergency_end" => some .terminalEnd
      | "complete" => some .complete
      | _ => none
  | .appointment =>
      match route_from_appointment s with
      | "virtual_assistant_agent" => some .virtualAssistant
      | "complete" => some .complete
      | _ => none
  | .virtualAssistant => some .complete
  | .clinicalDocs => some .complete
  | .complete => some .terminalEnd
  | .terminalEnd => none

/-- A hop of the outer graph, with the post-handler state abstracted: node
`b` follows node `a` when some state makes the routing choose it. -/
def WStep (a b : WNode) : Prop := ∃ s : WState, next_node a s = some b

/-- The four specialist handlers (glossary of the spec: supervisor and the
bookkeeping completion node are not specialist handlers). -/
def isHandler : WNode → Bool
  | .triage => true
  | .appointment => true
  | .virtualAssistant => true
  | .clinicalDocs => true
  | _ => false

/-- Rank function decreasing along every edge (acyclicity witness). -/
def nodeRank : WNode → Nat
  | .supervisor => 5
  | .triage => 4
  | .appointment => 3
  | .virtualAssistant => 2
  | .clinicalDocs => 2
  | .complete => 1
  | .terminalEnd => 0

/-- Upper bound on the number of specialist handlers in a run starting at a
node (the node itself included). -/
def handlerBound : WNode → Nat
  | .supervisor => 3
  | .triage => 3
  | .appointment => 2
  | .virtualAssistant => 1
  | .clinicalDocs => 1
  | .complete => 0
  | .terminalEnd => 0

/-- The emergency-keyword test of claim C1, on the lowercased message. -/
def containsEmergencyKeyword (text : String) : Bool :=
  emergency_keywords.any (fun k => containsStr (lowerStr text) k)

/-- The spec-side description of the urgency decision (section 4.2 of the
spec): ordered buckets emergency, urgent, moderate, routine; first matching
test wins.  Written from the words of the spec, for comparison with
`determine_urgency`. -/
def spec_first_match_urgency (emergency_indicators : List String)
    (severity_level : String) (score : ℚ) : String :=
  let buckets : List (String × Bool) :=
    [("emergency", !emergency_indicators.isEmpty || decide (score ≥ 9) ||
        severity_level == "emergency"),
     ("urgent", decide (score ≥ 7) || severity_level == "urgent"),
     ("moderate", decide (score ≥ 5) || severity_level == "moderate"),
     ("routine", true)]
  match buckets.find? (fun b => b.2) with
  | some b => b.1
  | none => "routine"

/-- Small demo calendar used by concrete witnesses and counterexamples. -/
def demoCalendar : Calendar :=
  { availability :=
      [("2025-03-03", { slots := ["09:00", "10:00"], emergency_slots := ["08:00"] })],
    appointments := [] }

/-- The calendar after storing one appointment under a date. -/
def bookedCalendar (c : Calendar) (d : String) (a : Appointment) : Calendar :=
  { c with appointments := addAppointment c.appointments d a }

/-- The appointment entry created by a successful booking. -/
def bookedEntry (p d t ty n : String) : Appointment :=
  { appointment_id := mkAppointmentId d t p, patient_id := p, date := d, time := t,
    appt_type := ty, notes := n, status := "confirmed" }

/-- The demo calendar holding one booking for patient P1 at the 09:00 slot. -/
def c10DemoCalendar : Calendar :=
  (book_appointment demoCalendar "P1" "2025-03-03" "09:00" "routine" "").2

/-- The literal book, cancel, reschedule sequence of claim C9 on the demo
calendar. -/
def c9LiteralResult : BookingResult × Calendar :=
  reschedule_appointment
    (cancel_appointment c10DemoCalendar "CARD-20250303-0900-P1").2
    "CARD-20250303-0900-P1" "2025-03-03" "10:00"

/-- A session state whose message list is empty (drives the triage error
path deterministically). -/
def emptyMessagesState : WState := { initial_state "hi" none with messages := [] }

/-- A fresh session state for a routine message. -/
def routineDemoState : WState := initial_state "hello" none

/-- A state carrying an emergency indicator but a low combined risk score. -/
def c4DemoState : WState :=
  { initial_state "check" none with
      symptom_analysis := some (symptom_analysis_tool "crushing chest pain"),
      combined_risk_score := some 2 }

/-- A state with all three monotonic flags already raised. -/
def flagsOnState : WState :=
  { initial_state "flags" none with
      requires_human_review := true, workflow_complete := true,
      escalation_needed := true }

/-- States driving one edge each of the longest outer-graph path. -/
def stateToTriage : WState := { initial_state "q" none with next_agent := some "triage_agent" }

def stateToAppointment : WState := { initial_state "q" none with urgency_level := some "urgent" }

def stateToVA : WState := { initial_state "q" none with appointment_scheduled := true }

/-- The longest realizable node trace after the supervisor. -/
def demoTrace : List WNode :=
  [WNode.triage, WNode.appointment, WNode.virtualAssistant, WNode.complete,
   WNode.terminalEnd]

/-! ## Helper lemmas about the calendar -/

theorem dictGet_addAppointment_self (l : List (String × List Appointment))
    (d : String) (a : Appointment) :
    dictGet (addAppointment l d a) d = some ((dictGet l d).getD [] ++ [a]) := by
  induction l with
  | nil => simp [addAppointment, dictGet]
  | cons hd tl ih =>
      obtain ⟨k, v⟩ := hd
      by_cases hk : k = d
      · subst hk; simp [addAppointment, dictGet]
      · simp [addAppointment, dictGet, hk, ih]

theorem dictGet_addAppointment_ne (l : List (String × List Appointment))
    (d d2 : String) (a : Appointment) (h : d ≠ d2) :
    dictGet (addAppointment l d a) d2 = dictGet l d2 := by
  induction l with
  | nil => simp [addAppointment, dictGet, h]
  | cons hd tl ih =>
      obtain ⟨k, v⟩ := hd
      by_cases hk : k = d
      · subst hk; simp [addAppointment, dictGet, h]
      · simp [addAppointment, dictGet, hk, ih]

theorem apptsAt_addAppointment (c : Calendar) (d d2 : String) (a : Appointment) :
    apptsAt (bookedCalendar c d a) d2 =
      if d2 = d then apptsAt c d2 ++ [a] else apptsAt c d2 := by
  by_cases h : d2 = d
  · subst h; simp [apptsAt, bookedCalendar, dictGet_addAppointment_self]
  · simp [apptsAt, bookedCalendar, dictGet_addAppointment_ne _ _ _ _ (Ne.symm h), h]

theorem availability_bookedCalendar (c : Calendar) (d : String) (a : Appointment) :
    (bookedCalendar c d a).availability = c.availability := rfl

theorem mem_check_slots {c : Calendar} {d ty t : String} :
    t ∈ (check_availability c d ty).slots ↔
      ∃ day, dictGet c.availability d = some day ∧
        t ∈ day.slots ++
          (if ty = "emergency" ∨ ty = "urgent" then day.emergency_slots else []) ∧
        ((apptsAt c d).map (fun a => a.time)).contains t = false := by
  unfold check_availability
  cases hread : dictGet c.availability d with
  | none => simp
  | some day => simp [List.mem_filter]; tauto

theorem check_availability_available (c : Calendar) (d ty : String) :
    (check_availability c d ty).available = !(check_availability c d ty).slots.isEmpty := by
  unfold check_availability
  cases dictGet c.availability d <;> rfl

theorem check_available_of_mem {c : Calendar} {d ty t : String}
    (h : t ∈ (check_availability c d ty).slots) :
    (check_availability c d ty).available = true := by
  rw [check_availability_available]
  simp only [Bool.not_eq_true', List.isEmpty_eq_false]
  exact List.ne_nil_of_mem h

theorem book_appointment_success {c : Calendar} {d ty t : String} (p n : String)
    (h : t ∈ (check_availability c d ty).slots) :
    book_appointment c p d t ty n =
      ({ success := true,
         message := "Appointment confirmed for " ++ d ++ " at " ++ t,
         alternative_slots := [], appointment_id := some (mkAppointmentId d t p),
         appointment := some (bookedEntry p d t ty n) },
       bookedCalendar c d (bookedEntry p d t ty n)) := by
  unfold book_appointment
  rw [if_neg]
  · rfl
  · intro hcond
    rcases hcond with h1 | h2
    · rw [check_available_of_mem h] at h1; simp at h1
    · exact h2 h

theorem book_appointment_fail {c : Calendar} {d ty t : String} (p n : String)
    (h : ¬ t ∈ (check_availability c d ty).slots) :
    book_appointment c p d t ty n =
      ({ success := false, message := "Requested time slot is not available",
         alternative_slots := (check_availability c d ty).slots.take 3,
         appointment_id := none, appointment := none }, c) := by
  unfold book_appointment
  rw [if_pos (Or.inr h)]

theorem removeFirstAppt_eq_none {v : List Appointment} {aid : String}
    (h : ∀ a ∈ v, a.appointment_id ≠ aid) : removeFirstAppt v aid = none := by
  induction v with
  | nil => rfl
  | cons a rest ih =>
      simp only [removeFirstAppt]
      rw [if_neg (h a (by simp)), ih (fun x hx => h x (by simp [hx]))]
      rfl

theorem cancelFrom_eq_none {l : List (String × List Appointment)} {aid : String}
    (h : aid ∉ allIds l) : cancelFrom l aid = none := by
  induction l with
  | nil => rfl
  | cons hd tl ih =>
      obtain ⟨k, v⟩ := hd
      have hv : ∀ a ∈ v, a.appointment_id ≠ aid := by
        intro a ha heq
        exact h (by simp [allIds, List.foldr_cons]; left; exact ⟨a, ha, heq⟩)
      have htl : aid ∉ allIds tl := by
        intro hmem
        exact h (by simp [allIds, List.foldr_cons]; right; simpa [allIds] using hmem)
      simp only [cancelFrom, removeFirstAppt_eq_none hv, ih htl]
      rfl

/-! ## Claim C5 -/

/-- C5.  For every slot listed as available by `check_availability`, booking
it twice in sequence succeeds on the first call and fails on the second call
with the alternative-slot message (and the alternative-slot list of the
failure dict), leaving the calendar exactly as after the first call — no
duplicate entry is added, for any appointment type and patient on the second
call. -/
theorem c5_booking_same_slot_twice (c : Calendar) (p p2 d t ty ty2 n n2 : String)
    (h : t ∈ (check_availability c d ty).slots) :
    (book_appointment c p d t ty n).1.success = true ∧
    (book_appointment (book_appointment c p d t ty n).2 p2 d t ty2 n2).1.success = false ∧
    (book_appointment (book_appointment c p d t ty n).2 p2 d t ty2 n2).1.message =
      "Requested time slot is not available" ∧
    (book_appointment (book_appointment c p d t ty n).2 p2 d t ty2 n2).1.alternative_slots =
      (check_availability (book_appointment c p d t ty n).2 d ty2).slots.take 3 ∧
    (book_appointment (book_appointment c p d t ty n).2 p2 d t ty2 n2).2 =
      (book_appointment c p d t ty n).2 := by
  have hbook := @book_appointment_success c d ty t p n h
  have h2snd : (book_appointment c p d t ty n).2 =
      bookedCalendar c d (bookedEntry p d t ty n) := by
    rw [hbook]
  have hnot : ¬ t ∈ (check_availability (book_appointment c p d t ty n).2 d ty2).slots := by
    rw [h2snd]
    intro hmem
    obtain ⟨day, hday, hbase, hcont⟩ := mem_check_slots.mp hmem
    have hcont2 := (by simpa using hcont :
      t ∉ (apptsAt (bookedCalendar c d (bookedEntry p d t ty n)) d).map (fun a => a.time))
    refine hcont2 ?_
    rw [apptsAt_addAppointment]
    simp [bookedEntry]
  have hfail := @book_appointment_fail (book_appointment c p d t ty n).2 d ty2 t p2 n2 hnot
  refine ⟨by rw [hbook], by rw [hfail], by rw [hfail], by rw [hfail], by rw [hfail]⟩

/-- Witness for C5: the 09:00 slot of the demo calendar. -/
theorem c5_booking_same_slot_twice_witness :
    "09:00" ∈ (check_availability demoCalendar "2025-03-03" "routine").slots ∧
    (book_appointment demoCalendar "P1" "2025-03-03" "09:00" "routine" "").1.success = true ∧
    (book_appointment (book_appointment demoCalendar "P1" "2025-03-03" "09:00" "routine" "").2
      "P2" "2025-03-03" "09:00" "routine" "").1.success = false := by
  have hmem : "09:00" ∈ (check_availability demoCalendar "2025-03-03" "routine").slots := by
    decide
  have hc := c5_booking_same_slot_twice demoCalendar "P1" "P2" "2025-03-03" "09:00"
    "routine" "routine" "" "" hmem
  exact ⟨hmem, hc.1, hc.2.1⟩

/-! ## Claim C8 -/

/-- C8.  Cancelling an appointment id that is nowhere in the calendar returns
the failure dict (success = false, not-found message, nothing cancelled) and
the calendar is exactly unchanged.  The embedding is a total function, which
is the no-exception guarantee: the Python loop falls through to the failure
return for any input. -/
theorem c8_cancel_missing_id (c : Calendar) (aid : String)
    (h : aid ∉ allIds c.appointments) :
    cancel_appointment c aid =
      ({ success := false, message := "Appointment not found",
         cancelled_appointment := none }, c) := by
  unfold cancel_appointment
  rw [cancelFrom_eq_none h]

/-- Witness for C8: an id absent from the demo calendar. -/
theorem c8_cancel_missing_id_witness :
    "CARD-NOPE" ∉ allIds demoCalendar.appointments ∧
    cancel_appointment demoCalendar "CARD-NOPE" =
      ({ success := false, message := "Appointment not found",
         cancelled_appointment := none }, demoCalendar) :=
  ⟨by decide, c8_cancel_missing_id demoCalendar "CARD-NOPE" (by decide)⟩

/-! ## Helper lemmas about cancel and reschedule -/

theorem allIds_cons (k : String) (v : List Appointment)
    (tl : List (String × List Appointment)) :
    allIds ((k, v) :: tl) = v.map (fun a => a.appointment_id) ++ allIds tl := rfl

theorem not_mem_allIds_cons {k : String} {v : List Appointment}
    {tl : List (String × List Appointment)} {aid : String}
    (h : aid ∉ allIds ((k, v) :: tl)) :
    (∀ a ∈ v, a.appointment_id ≠ aid) ∧ aid ∉ allIds tl := by
  rw [allIds_cons] at h
  simp only [List.mem_append, List.mem_map, not_or, not_exists] at h
  exact ⟨fun a ha heq => h.1 a ⟨ha, heq⟩, h.2⟩

theorem findAppointment_eq_none {l : List (String × List Appointment)} {aid : String}
    (h : aid ∉ allIds l) : findAppointment l aid = none := by
  induction l with
  | nil => rfl
  | cons hd tl ih =>
      obtain ⟨k, v⟩ := hd
      obtain ⟨hv, htl⟩ := not_mem_allIds_cons h
      simp only [findAppointment, ih htl]
      exact List.find?_eq_none.mpr (fun a ha => by simp [hv a ha])

theorem find?_append_single {v : List Appointment} {aid : String} {a : Appointment}
    (hv : ∀ x ∈ v, x.appointment_id ≠ aid) (ha : a.appointment_id = aid) :
    (v ++ [a]).find? (fun x => x.appointment_id == aid) = some a := by
  induction v with
  | nil => simp [List.find?, ha]
  | cons x xs ih =>
      have hx : (x.appointment_id == aid) = false := by simp [hv x (by simp)]
      simp only [List.cons_append, List.find?, hx]
      exact ih (fun y hy => hv y (by simp [hy]))

theorem findAppointment_addAppointment {l : List (String × List Appointment)} {aid : String}
    (d : String) (a : Appointment) (ha : a.appointment_id = aid) (h : aid ∉ allIds l) :
    findAppointment (addAppointment l d a) aid = some a := by
  induction l with
  | nil => simp [addAppointment, findAppointment, List.find?, ha]
  | cons hd tl ih =>
      obtain ⟨k, v⟩ := hd
      obtain ⟨hv, htl⟩ := not_mem_allIds_cons h
      by_cases hk : k = d
      · subst hk
        simp only [addAppointment, if_pos rfl, findAppointment, findAppointment_eq_none htl]
        exact find?_append_single hv ha
      · simp only [addAppointment, if_neg hk, findAppointment, ih htl]

theorem removeFirstAppt_append_single {v : List Appointment} {aid : String} {a : Appointment}
    (hv : ∀ x ∈ v, x.appointment_id ≠ aid) (ha : a.appointment_id = aid) :
    removeFirstAppt (v ++ [a]) aid = some (a, v) := by
  induction v with
  | nil => simp [removeFirstAppt, ha]
  | cons x xs ih =>
      simp only [List.cons_append, removeFirstAppt, List.append_eq]
      rw [if_neg (hv x (by simp)), ih (fun y hy => hv y (by simp [hy]))]
      rfl

theorem cancelFrom_addAppointment {l : List (String × List Appointment)} {aid : String}
    (d : String) (a : Appointment) (ha : a.appointment_id = aid) (h : aid ∉ allIds l) :
    ∃ l2, cancelFrom (addAppointment l d a) aid = some (a, l2) ∧
      ∀ d2, (dictGet l2 d2).getD [] = (dictGet l d2).getD [] := by
  induction l with
  | nil =>
      refine ⟨[(d, [])], ?_, ?_⟩
      · simp [addAppointment, cancelFrom, removeFirstAppt, ha]
      · intro d2
        by_cases hd : d = d2 <;> simp [dictGet, hd]
  | cons hd tl ih =>
      obtain ⟨k, v⟩ := hd
      obtain ⟨hv, htl⟩ := not_mem_allIds_cons h
      by_cases hk : k = d
      · subst hk
        refine ⟨(k, v) :: tl, ?_, fun d2 => rfl⟩
        simp only [addAppointment, if_pos rfl, cancelFrom,
          removeFirstAppt_append_single hv ha]
      · obtain ⟨l2, hl2, hpt⟩ := ih htl
        refine ⟨(k, v) :: l2, ?_, ?_⟩
        · simp only [addAppointment, if_neg hk, cancelFrom,
            removeFirstAppt_eq_none hv, hl2]
          rfl
        · intro d2
          by_cases hkd : k = d2 <;> simp [dictGet, hkd, hpt d2]

/-- Cancelling a freshly booked id removes exactly the new entry: the
resulting calendar agrees with the pre-booking calendar on every date. -/
theorem cancel_bookedCalendar (c : Calendar) {d aid : String} {a : Appointment}
    (ha : a.appointment_id = aid) (h : aid ∉ allIds c.appointments) :
    ∃ c2 : Calendar,
      cancel_appointment (bookedCalendar c d a) aid =
        ({ success := true, message := "Appointment cancelled successfully",
           cancelled_appointment := some a }, c2) ∧
      c2.availability = c.availability ∧ ∀ d2, apptsAt c2 d2 = apptsAt c d2 := by
  obtain ⟨l2, hl2, hpt⟩ := cancelFrom_addAppointment d a ha h
  refine ⟨{ availability := c.availability, appointments := l2 }, ?_, rfl, ?_⟩
  · unfold cancel_appointment bookedCalendar
    rw [hl2]
  · intro d2
    simpa [apptsAt] using hpt d2

theorem check_availability_congr {c c2 : Calendar}
    (hav : c2.availability = c.availability)
    (happ : ∀ d, apptsAt c2 d = apptsAt c d) (d ty : String) :
    check_availability c2 d ty = check_availability c d ty := by
  unfold check_availability
  rw [hav, happ d]

theorem no_time_mem_of_avail {c : Calendar} {d ty t : String}
    (h : t ∈ (check_availability c d ty).slots) :
    ∀ a ∈ apptsAt c d, a.time ≠ t := by
  obtain ⟨day, hday, hbase, hcont⟩ := mem_check_slots.mp h
  intro a ha heq
  have : t ∉ (apptsAt c d).map (fun a => a.time) := by simpa using hcont
  exact this (List.mem_map.mpr ⟨a, ha, heq⟩)

theorem countAt_eq_zero_of_no_time {c : Calendar} {d t : String} (p : String)
    (h : ∀ a ∈ apptsAt c d, a.time ≠ t) : countAt c p d t = 0 := by
  unfold countAt
  rw [List.length_eq_zero, List.filter_eq_nil_iff]
  intro a ha
  simp [h a ha]

theorem removeFirstAppt_length {v : List Appointment} {aid : String}
    {a : Appointment} {v2 : List Appointment}
    (h : removeFirstAppt v aid = some (a, v2)) : v2.length + 1 = v.length := by
  induction v generalizing a v2 with
  | nil => simp [removeFirstAppt] at h
  | cons x xs ih =>
      by_cases hx : x.appointment_id = aid
      · simp only [removeFirstAppt, if_pos hx, Option.some.injEq, Prod.mk.injEq] at h
        obtain ⟨-, hv2⟩ := h
        subst hv2
        simp
      · cases hrec : removeFirstAppt xs aid with
        | none => simp [removeFirstAppt, if_neg hx, hrec] at h
        | some pr =>
            obtain ⟨b, ys⟩ := pr
            simp only [removeFirstAppt, if_neg hx, hrec, Option.map_some',
              Option.some.injEq, Prod.mk.injEq] at h
            obtain ⟨-, hv2⟩ := h
            subst hv2
            have := ih hrec
            simp only [List.length_cons]
            omega

theorem cancelFrom_length {l : List (String × List Appointment)} {aid : String}
    {a : Appointment} {l2 : List (String × List Appointment)}
    (h : cancelFrom l aid = some (a, l2)) :
    (allIds l2).length + 1 = (allIds l).length := by
  induction l generalizing a l2 with
  | nil => simp [cancelFrom] at h
  | cons hd tl ih =>
      obtain ⟨k, v⟩ := hd
      cases hrv : removeFirstAppt v aid with
      | some pr =>
          obtain ⟨b, v2⟩ := pr
          simp only [cancelFrom, hrv, Option.some.injEq, Prod.mk.injEq] at h
          obtain ⟨-, hl2⟩ := h
          subst hl2
          have := removeFirstAppt_length hrv
          simp only [allIds_cons, List.length_append, List.length_map]
          omega
      | none =>
          cases hrec : cancelFrom tl aid with
          | none => simp [cancelFrom, hrv, hrec] at h
          | some pr =>
              obtain ⟨b, tl2⟩ := pr
              simp only [cancelFrom, hrv, hrec, Option.map_some',
                Option.some.injEq, Prod.mk.injEq] at h
              obtain ⟨-, hl2⟩ := h
              subst hl2
              have := ih hrec
              simp only [allIds_cons, List.length_append, List.length_map]
              omega

theorem removeFirstAppt_isSome_of_find {v : List Appointment} {aid : String} {a : Appointment}
    (h : v.find? (fun x => x.appointment_id == aid) = some a) :
    ∃ pr, removeFirstAppt v aid = some pr := by
  induction v with
  | nil => simp [List.find?] at h
  | cons x xs ih =>
      by_cases hx : x.appointment_id = aid
      · exact ⟨(x, xs), by simp [removeFirstAppt, hx]⟩
      · have hfx : (x.appointment_id == aid) = false := by simp [hx]
        simp only [List.find?, hfx] at h
        obtain ⟨pr, hpr⟩ := ih h
        exact ⟨(pr.1, x :: pr.2), by simp [removeFirstAppt, hx, hpr]⟩

theorem cancelFrom_isSome_of_find {l : List (String × List Appointment)} {aid : String}
    (h : (findAppointment l aid).isSome = true) : (cancelFrom l aid).isSome = true := by
  induction l with
  | nil => simp [findAppointment] at h
  | cons hd tl ih =>
      obtain ⟨k, v⟩ := hd
      cases hrv : removeFirstAppt v aid with
      | some pr => simp [cancelFrom, hrv]
      | none =>
          simp only [cancelFrom, hrv]
          cases htl : findAppointment tl aid with
          | some b =>
              have hc := ih (by simp [htl])
              cases hcf : cancelFrom tl aid with
              | none => rw [hcf] at hc; simp at hc
              | some pr => simp [hcf]
          | none =>
              simp only [findAppointment, htl] at h
              cases hf : v.find? (fun x => x.appointment_id == aid) with
              | none => rw [hf] at h; simp at h
              | some b =>
                  obtain ⟨pr, hpr⟩ := removeFirstAppt_isSome_of_find hf
                  rw [hpr] at hrv
                  simp at hrv

/-! ## Claim C10 -/

/-- C10.  When `reschedule_appointment` finds the appointment id but the new
slot is not available, the internal cancel step has already removed the
original entry before the booking fails: the call returns success = false,
the resulting calendar is exactly the post-cancel calendar, and it holds one
appointment fewer than the original calendar — the removed entry is not
restored on error. -/
theorem c10_failed_reschedule_loses_entry (c : Calendar) (aid d2 t2 : String)
    (ex : Appointment)
    (hfind : findAppointment c.appointments aid = some ex)
    (hunavail :
      ¬ t2 ∈ (check_availability (cancel_appointment c aid).2 d2 ex.appt_type).slots) :
    (cancel_appointment c aid).1.success = true ∧
    (reschedule_appointment c aid d2 t2).1.success = false ∧
    (reschedule_appointment c aid d2 t2).2 = (cancel_appointment c aid).2 ∧
    (allIds (reschedule_appointment c aid d2 t2).2.appointments).length + 1 =
      (allIds c.appointments).length := by
  have hsome : (cancelFrom c.appointments aid).isSome = true :=
    cancelFrom_isSome_of_find (by simp [hfind])
  cases hcf : cancelFrom c.appointments aid with
  | none => rw [hcf] at hsome; simp at hsome
  | some pr =>
      obtain ⟨a0, l2⟩ := pr
      have hcanc : cancel_appointment c aid =
          ({ success := true, message := "Appointment cancelled successfully",
             cancelled_appointment := some a0 },
           { availability := c.availability, appointments := l2 }) := by
        unfold cancel_appointment
        rw [hcf]
      have hres : reschedule_appointment c aid d2 t2 =
          book_appointment { availability := c.availability, appointments := l2 }
            ex.patient_id d2 t2 ex.appt_type ex.notes := by
        simp [reschedule_appointment, hfind, hcanc]
      have hunavail2 :
          ¬ t2 ∈ (check_availability
            { availability := c.availability, appointments := l2 } d2 ex.appt_type).slots := by
        rw [hcanc] at hunavail
        exact hunavail
      have hfail := @book_appointment_fail
        { availability := c.availability, appointments := l2 }
        d2 ex.appt_type t2 ex.patient_id ex.notes hunavail2
      refine ⟨by rw [hcanc], by rw [hres, hfail], by rw [hres, hfail, hcanc], ?_⟩
      rw [hres, hfail]
      exact cancelFrom_length hcf

/-- Witness for C10: rescheduling the booked 09:00 appointment of the demo
calendar to the unavailable time 12:00. -/
theorem c10_failed_reschedule_loses_entry_witness :
    findAppointment c10DemoCalendar.appointments "CARD-20250303-0900-P1" =
      some (bookedEntry "P1" "2025-03-03" "09:00" "routine" "") ∧
    (reschedule_appointment c10DemoCalendar "CARD-20250303-0900-P1"
      "2025-03-03" "12:00").1.success = false ∧
    (allIds (reschedule_appointment c10DemoCalendar "CARD-20250303-0900-P1"
      "2025-03-03" "12:00").2.appointments).length + 1 =
      (allIds c10DemoCalendar.appointments).length := by
  have h := c10_failed_reschedule_loses_entry c10DemoCalendar "CARD-20250303-0900-P1"
    "2025-03-03" "12:00" (bookedEntry "P1" "2025-03-03" "09:00" "routine" "")
    (by decide) (by decide)
  exact ⟨by decide, h.2.1, h.2.2.2⟩

/-! ## Claim C9 -/

/-- Counterexample to C9 as stated: performing the literal sequence book,
cancel, reschedule leaves ZERO confirmed entries for the patient at the new
slot (and zero at the old slot), not exactly one, because the id passed to
`reschedule_appointment` was removed by the explicit cancel, so the internal
lookup fails with the not-found result. -/
theorem c9_roundtrip_counterexample :
    c9LiteralResult.1.success = false ∧
    c9LiteralResult.1.message = "Appointment not found" ∧
    countAt c9LiteralResult.2 "P1" "2025-03-03" "10:00" = 0 ∧
    countAt c9LiteralResult.2 "P1" "2025-03-03" "09:00" = 0 := by decide

/-- C9 amended: the round trip realized by the code is booking followed by
`reschedule_appointment`, whose internal cancel step performs the removal.
For a fresh booking (old slot available, generated id not already present)
and a new slot that is available after the internal cancel and distinct from
the old one, rescheduling succeeds and the calendar holds exactly one
confirmed entry for the patient at the new slot and zero at the old slot. -/
theorem c9_book_then_reschedule (c : Calendar) (p d1 t1 d2 t2 ty n : String)
    (h1 : t1 ∈ (check_availability c d1 ty).slots)
    (hfresh : mkAppointmentId d1 t1 p ∉ allIds c.appointments)
    (h2 : t2 ∈ (check_availability
        (cancel_appointment (book_appointment c p d1 t1 ty n).2
          (mkAppointmentId d1 t1 p)).2 d2 ty).slots)
    (hne : ¬ (d2 = d1 ∧ t2 = t1)) :
    (reschedule_appointment (book_appointment c p d1 t1 ty n).2
        (mkAppointmentId d1 t1 p) d2 t2).1.success = true ∧
    countAt (reschedule_appointment (book_appointment c p d1 t1 ty n).2
        (mkAppointmentId d1 t1 p) d2 t2).2 p d2 t2 = 1 ∧
    countAt (reschedule_appointment (book_appointment c p d1 t1 ty n).2
        (mkAppointmentId d1 t1 p) d2 t2).2 p d1 t1 = 0 := by
  have hbook := @book_appointment_success c d1 ty t1 p n h1
  have hc1 : (book_appointment c p d1 t1 ty n).2 =
      bookedCalendar c d1 (bookedEntry p d1 t1 ty n) := by rw [hbook]
  have hfind : findAppointment (book_appointment c p d1 t1 ty n).2.appointments
      (mkAppointmentId d1 t1 p) = some (bookedEntry p d1 t1 ty n) := by
    rw [hc1]
    exact findAppointment_addAppointment d1 (bookedEntry p d1 t1 ty n) rfl hfresh
  obtain ⟨c2, hcanc, hav2, happ2⟩ :=
    cancel_bookedCalendar c (d := d1) (a := bookedEntry p d1 t1 ty n) rfl hfresh
  have hcanc2 : cancel_appointment (book_appointment c p d1 t1 ty n).2
      (mkAppointmentId d1 t1 p) =
      ({ success := true, message := "Appointment cancelled successfully",
         cancelled_appointment := some (bookedEntry p d1 t1 ty n) }, c2) := by
    rw [hc1]
    exact hcanc
  have h2c : t2 ∈ (check_availability c2 d2 ty).slots := by
    rw [hcanc2] at h2
    exact h2
  have hres : reschedule_appointment (book_appointment c p d1 t1 ty n).2
      (mkAppointmentId d1 t1 p) d2 t2 = book_appointment c2 p d2 t2 ty n := by
    simp [reschedule_appointment, hfind, hcanc2, bookedEntry]
  have hbook2 := @book_appointment_success c2 d2 ty t2 p n h2c
  have hnold : ∀ a ∈ apptsAt c2 d1, a.time ≠ t1 := by
    intro a ha
    rw [happ2 d1] at ha
    exact no_time_mem_of_avail h1 a ha
  have hnnew : ∀ a ∈ apptsAt c2 d2, a.time ≠ t2 := no_time_mem_of_avail h2c
  rw [hres, hbook2]
  refine ⟨rfl, ?_, ?_⟩
  · unfold countAt
    rw [apptsAt_addAppointment, if_pos rfl, List.filter_append]
    have hz : (apptsAt c2 d2).filter
        (fun a => a.patient_id == p && a.time == t2 && a.status == "confirmed") = [] := by
      rw [List.filter_eq_nil_iff]
      intro a ha
      simp [hnnew a ha]
    rw [hz]
    simp [bookedEntry]
  · unfold countAt
    rw [apptsAt_addAppointment]
    by_cases hd : d1 = d2
    · rw [if_pos hd, List.filter_append]
      have hz : (apptsAt c2 d1).filter
          (fun a => a.patient_id == p && a.time == t1 && a.status == "confirmed") = [] := by
        rw [List.filter_eq_nil_iff]
        intro a ha
        simp [hnold a ha]
      have ht : t2 ≠ t1 := fun heq => hne ⟨hd.symm, heq⟩
      rw [hz]
      simp [bookedEntry, ht]
    · rw [if_neg hd]
      rw [List.length_eq_zero, List.filter_eq_nil_iff]
      intro a ha
      simp [hnold a ha]

/-- Witness for C9 (amended): on the demo calendar, booking P1 at 09:00 and
rescheduling to 10:00 leaves one confirmed entry at 10:00 and none at
09:00. -/
theorem c9_book_then_reschedule_witness :
    (reschedule_appointment c10DemoCalendar "CARD-20250303-0900-P1"
      "2025-03-03" "10:00").1.success = true ∧
    countAt (reschedule_appointment c10DemoCalendar "CARD-20250303-0900-P1"
      "2025-03-03" "10:00").2 "P1" "2025-03-03" "10:00" = 1 ∧
    countAt (reschedule_appointment c10DemoCalendar "CARD-20250303-0900-P1"
      "2025-03-03" "10:00").2 "P1" "2025-03-03" "09:00" = 0 :=
  c9_book_then_reschedule demoCalendar "P1" "2025-03-03" "09:00" "2025-03-03" "10:00"
    "routine" "" (by decide) (by decide) (by decide) (by decide)

/-! ## Helper lemmas about the triage pipeline -/

theorem symptom_tool_indicators (text : String) :
    (symptom_analysis_tool text).emergency_indicators =
      emergency_keywords.filter (fun k => containsStr (lowerStr text) k) := rfl

theorem emergency_indicators_ne_nil {text : String}
    (h : containsEmergencyKeyword text = true) :
    (symptom_analysis_tool text).emergency_indicators ≠ [] := by
  rw [symptom_tool_indicators]
  unfold containsEmergencyKeyword at h
  rw [List.any_eq_true] at h
  obtain ⟨k, hk, hc⟩ := h
  intro hnil
  rw [List.filter_eq_nil_iff] at hnil
  exact absurd hc (by simpa using hnil k hk)

theorem assess_risk_error (s : WState) : (assess_risk s).error = s.error := rfl

theorem assess_risk_symptoms (s : WState) :
    (assess_risk s).symptom_analysis = s.symptom_analysis := rfl

theorem determine_urgency_error (s : WState) :
    (determine_urgency s).error = s.error := rfl

theorem determine_urgency_emergency {s : WState} {sa : SymptomAnalysis}
    (hsa : s.symptom_analysis = some sa) (hind : sa.emergency_indicators ≠ []) :
    (determine_urgency s).urgency_level = some "emergency" ∧
    (determine_urgency s).next_action = some "escalate_emergency" ∧
    (determine_urgency s).escalation_needed = true := by
  have hne : (!sa.emergency_indicators.isEmpty) = true := by
    simpa [List.isEmpty_iff] using hind
  unfold determine_urgency
  rw [hsa]
  simp [hne]

/-! ## Claim C1 -/

/-- C1.  If the last message of the state entering triage contains (after
lowercasing) any configured emergency keyword, and the triage pipeline runs
(clinical-assessment oracle call returns, no pre-set error), then the triage
step assigns urgency emergency, completes the workflow with human review and
next agent END, and the outer router sends control to the emergency terminal
(LangGraph END) — never to the appointment or education handler — regardless
of the risk score, which is computed from the same fixed stub and cannot
override the emergency-indicator disjunct. -/
theorem c1_emergency_keyword_terminal (s : WState) (m : String)
    (hm : s.messages.getLast? = some m)
    (hkw : containsEmergencyKeyword m = true)
    (herr : s.error = none) :
    (triage_agent_step true s).urgency_level = some "emergency" ∧
    (triage_agent_step true s).workflow_complete = true ∧
    (triage_agent_step true s).requires_human_review = true ∧
    (triage_agent_step true s).next_agent = some "END" ∧
    route_from_triage (triage_agent_step true s) = "emergency_end" ∧
    next_node WNode.triage (triage_agent_step true s) = some WNode.terminalEnd := by
  have hind := emergency_indicators_ne_nil hkw
  have h1 : analyze_symptoms true s =
      { s with symptom_analysis := some (symptom_analysis_tool m),
               current_agent := some "triage_agent",
               tools_used := s.tools_used ++ ["symptom_analysis_tool", "llm_assessment"],
               next_action := some "assess_risk",
               messages := s.messages ++ ["Analyzing symptoms..."] } := by
    unfold analyze_symptoms
    rw [hm]
    rfl
  have h1e : (analyze_symptoms true s).error = none := by rw [h1]; exact herr
  have h1sa : (analyze_symptoms true s).symptom_analysis =
      some (symptom_analysis_tool m) := by rw [h1]
  have h2e : (assess_risk (analyze_symptoms true s)).error = none := by
    rw [assess_risk_error]; exact h1e
  have h2sa : (assess_risk (analyze_symptoms true s)).symptom_analysis =
      some (symptom_analysis_tool m) := by rw [assess_risk_symptoms]; exact h1sa
  obtain ⟨hu, hna, hesc⟩ := determine_urgency_emergency h2sa hind
  have h3e : (determine_urgency (assess_risk (analyze_symptoms true s))).error = none := by
    rw [determine_urgency_error]; exact h2e
  have hstep : triage_agent_step true s =
      escalate_emergency (determine_urgency (assess_risk (analyze_symptoms true s))) := by
    unfold triage_agent_step
    simp [h1e, h2e, h3e, hna]
  have hu2 : (triage_agent_step true s).urgency_level = some "emergency" := by
    rw [hstep]; exact hu
  have hroute : route_from_triage (triage_agent_step true s) = "emergency_end" := by
    unfold route_from_triage
    rw [hu2]
    rfl
  refine ⟨hu2, by rw [hstep]; rfl, by rw [hstep]; rfl, by rw [hstep]; rfl, hroute, ?_⟩
  unfold next_node
  rw [hroute]
  rfl

/-- Witness for C1: the spec scenario message. -/
theorem c1_emergency_keyword_terminal_witness :
    (triage_agent_step true
      (initial_state "I have crushing chest pain radiating to my arm" (some "P1"))).urgency_level =
      some "emergency" ∧
    route_from_triage (triage_agent_step true
      (initial_state "I have crushing chest pain radiating to my arm" (some "P1"))) =
      "emergency_end" := by
  have h := c1_emergency_keyword_terminal
    (initial_state "I have crushing chest pain radiating to my arm" (some "P1"))
    "I have crushing chest pain radiating to my arm" (by decide) (by decide) (by decide)
  exact ⟨h.1, h.2.2.2.2.1⟩

theorem analyze_symptoms_urgency (b : Bool) (s : WState) :
    (analyze_symptoms b s).urgency_level = s.urgency_level := by
  unfold analyze_symptoms
  cases s.messages.getLast? <;> cases b <;> rfl

theorem analyze_symptoms_escalation (b : Bool) (s : WState) :
    (analyze_symptoms b s).escalation_needed = s.escalation_needed := by
  unfold analyze_symptoms
  cases s.messages.getLast? <;> cases b <;> rfl

theorem analyze_symptoms_rhr (b : Bool) (s : WState) :
    (analyze_symptoms b s).requires_human_review = s.requires_human_review := by
  unfold analyze_symptoms
  cases s.messages.getLast? <;> cases b <;> rfl

theorem escalate_emergency_error (s : WState) :
    (escalate_emergency s).error = s.error := rfl

theorem provide_recommendations_error (s : WState) :
    (provide_recommendations s).error = s.error := rfl

/-- Every terminal of the triage StateGraph marks the workflow complete. -/
theorem triage_step_wc (b : Bool) (s : WState) :
    (triage_agent_step b s).workflow_complete = true := by
  unfold triage_agent_step
  dsimp only
  split
  · rfl
  · split
    · rfl
    · split
      · rfl
      · split
        · rfl
        · rfl

/-- An erroring triage step always exits through `_handle_triage_error_node`:
the error can arrive only from the symptom-analysis stage (a pre-set error
field or the analysis failure), since the later stages are total and the
non-error terminals preserve an absent error. -/
theorem triage_step_error_cases (b : Bool) (s : WState)
    (h : (triage_agent_step b s).error.isSome = true) :
    triage_agent_step b s = handle_triage_error (analyze_symptoms b s) := by
  unfold triage_agent_step at h ⊢
  by_cases h1 : (analyze_symptoms b s).error.isSome = true
  · rw [if_pos h1]
  · exfalso
    rw [if_neg h1] at h
    have h2 : ¬ (assess_risk (analyze_symptoms b s)).error.isSome = true := by
      rw [assess_risk_error]; exact h1
    rw [if_neg h2] at h
    have h3 : ¬ (determine_urgency (assess_risk (analyze_symptoms b s))).error.isSome =
        true := by
      rw [determine_urgency_error, assess_risk_error]; exact h1
    rw [if_neg h3] at h
    by_cases h4 : ((determine_urgency (assess_risk (analyze_symptoms b s))).next_action ==
        some "escalate_emergency") = true
    · rw [if_pos h4] at h
      rw [escalate_emergency_error, determine_urgency_error, assess_risk_error] at h
      exact h1 h
    · rw [if_neg h4] at h
      rw [provide_recommendations_error, determine_urgency_error, assess_risk_error] at h
      exact h1 h

/-! ## Claim C2 -/

/-- Counterexample to C2: entering triage with an empty message list sets the
error field, and the workflow then dispatches the virtual-assistant handler —
the education node, not a terminal — so a further handler IS invoked after
the erroring step. -/
theorem c2_error_step_counterexample :
    (triage_agent_step true emptyMessagesState).error = some "No symptoms to analyze" ∧
    (triage_agent_step true emptyMessagesState).requires_human_review = true ∧
    (triage_agent_step true emptyMessagesState).workflow_complete = true ∧
    route_from_triage (triage_agent_step true emptyMessagesState) =
      "virtual_assistant_agent" ∧
    next_node WNode.triage (triage_agent_step true emptyMessagesState) =
      some WNode.virtualAssistant := by decide

/-- C2 amended.  A session state that errors during the triage step does end
it with requires_human_review = true and workflow_complete = true, but the
error does NOT override the outer routing: for a fresh session entry (no
urgency level assigned yet, escalation flag down), `_route_from_triage`
dispatches the virtual-assistant (education) handler, which then executes —
the run does not terminate at the erroring step. -/
theorem c2_error_sets_review_but_routes_on (b : Bool) (s : WState)
    (hu : s.urgency_level = none) (hesc : s.escalation_needed = false)
    (herr : (triage_agent_step b s).error.isSome = true) :
    (triage_agent_step b s).requires_human_review = true ∧
    (triage_agent_step b s).workflow_complete = true ∧
    route_from_triage (triage_agent_step b s) = "virtual_assistant_agent" ∧
    next_node WNode.triage (triage_agent_step b s) = some WNode.virtualAssistant := by
  have hstep := triage_step_error_cases b s herr
  rw [hstep]
  have hu2 : (handle_triage_error (analyze_symptoms b s)).urgency_level = none := by
    show (analyze_symptoms b s).urgency_level = none
    rw [analyze_symptoms_urgency]; exact hu
  have hesc2 : (handle_triage_error (analyze_symptoms b s)).escalation_needed = false := by
    show (analyze_symptoms b s).escalation_needed = false
    rw [analyze_symptoms_escalation]; exact hesc
  have hna : (handle_triage_error (analyze_symptoms b s)).next_agent =
      some "virtual_assistant_agent" := rfl
  have hroute : route_from_triage (handle_triage_error (analyze_symptoms b s)) =
      "virtual_assistant_agent" := by
    unfold route_from_triage
    rw [hu2, hesc2, hna]
    rfl
  refine ⟨rfl, rfl, hroute, ?_⟩
  unfold next_node
  rw [hroute]
  rfl

/-- Witness for C2 (amended): the empty-message state satisfies the
hypotheses and the conclusion. -/
theorem c2_error_sets_review_but_routes_on_witness :
    (triage_agent_step true emptyMessagesState).error.isSome = true ∧
    (triage_agent_step true emptyMessagesState).requires_human_review = true ∧
    route_from_triage (triage_agent_step true emptyMessagesState) =
      "virtual_assistant_agent" := by
  have h := c2_error_sets_review_but_routes_on true emptyMessagesState
    rfl rfl (by decide)
  exact ⟨by decide, h.1, h.2.2.1⟩

/-! ## Claim C4 -/

/-- C4.  The urgency decision of `_determine_urgency_node` equals the
first-match evaluation of the ordered buckets emergency, urgent, moderate,
routine (as the spec words them), and the emergency disjunct — a nonempty
emergency-keyword indicator list OR combined score at least 9 — forces
urgency emergency over every later bucket test. -/
theorem c4_urgency_bucket_order (s : WState) (sa : SymptomAnalysis) (q : ℚ)
    (hsa : s.symptom_analysis = some sa) (hq : s.combined_risk_score = some q) :
    (determine_urgency s).urgency_level =
      some (spec_first_match_urgency sa.emergency_indicators sa.severity_level q) ∧
    ((!sa.emergency_indicators.isEmpty || decide (q ≥ 9)) = true →
      (determine_urgency s).urgency_level = some "emergency") := by
  constructor
  · unfold determine_urgency spec_first_match_urgency
    rw [hsa, hq]
    by_cases h1 : (!sa.emergency_indicators.isEmpty || decide (q ≥ 9) ||
        (sa.severity_level == "emergency")) = true
    · simp [h1, List.find?]
    · by_cases h2 : (decide (q ≥ 7) || (sa.severity_level == "urgent")) = true
      · simp [h1, h2, List.find?]
      · by_cases h3 : (decide (q ≥ 5) || (sa.severity_level == "moderate")) = true
        · simp [h1, h2, h3, List.find?]
        · simp [h1, h2, h3, List.find?]
  · intro hpre
    unfold determine_urgency
    rw [hsa, hq]
    simp [hpre]

/-- Witness for C4: an emergency indicator with combined score only 2 still
yields urgency emergency (keyword precedence over the score), and the code
decision matches the spec-side first-match function. -/
theorem c4_urgency_bucket_order_witness :
    (determine_urgency c4DemoState).urgency_level = some "emergency" ∧
    (determine_urgency c4DemoState).urgency_level =
      some (spec_first_match_urgency
        (symptom_analysis_tool "crushing chest pain").emergency_indicators
        (symptom_analysis_tool "crushing chest pain").severity_level 2) := by
  have h := c4_urgency_bucket_order c4DemoState
    (symptom_analysis_tool "crushing chest pain") 2 rfl rfl
  exact ⟨h.2 (by decide), h.1⟩

/-! ## Helper lemmas: the routine triage path and flag preservation -/

theorem assess_risk_rhr (s : WState) :
    (assess_risk s).requires_human_review = s.requires_human_review := rfl

theorem determine_urgency_rhr (s : WState) :
    (determine_urgency s).requires_human_review = s.requires_human_review := rfl

theorem assess_risk_score {s : WState} {sa : SymptomAnalysis}
    (hsa : s.symptom_analysis = some sa) :
    (assess_risk s).combined_risk_score =
      some (min 10 (sa.severity_score * (patient_risk_assessment_tool.risk_score / 5))) := by
  unfold assess_risk
  rw [hsa]

theorem determine_urgency_routine {s : WState} {sa : SymptomAnalysis} {q : ℚ}
    (hsa : s.symptom_analysis = some sa) (hq : s.combined_risk_score = some q)
    (hind : sa.emergency_indicators = []) (hsev : sa.severity_level = "routine")
    (h5 : ¬ (5 : ℚ) ≤ q) :
    (determine_urgency s).urgency_level = some "routine" ∧
    (determine_urgency s).next_action = some "provide_recommendations" ∧
    (determine_urgency s).escalation_needed = false ∧
    ((determine_urgency s).triage_result).map (fun tr => tr.urgency_level) =
      some "routine" := by
  have h9 : ¬ (9 : ℚ) ≤ q := fun h => h5 (le_trans (by norm_num) h)
  have h7 : ¬ (7 : ℚ) ≤ q := fun h => h5 (le_trans (by norm_num) h)
  unfold determine_urgency
  rw [hsa, hq]
  simp [hind, hsev, ge_iff_le, h5, h7, h9]

theorem provide_recommendations_next_agent_routine {s : WState}
    (h : (s.triage_result).map (fun tr => tr.urgency_level) = some "routine") :
    (provide_recommendations s).next_agent = some "virtual_assistant_agent" := by
  cases htr : s.triage_result with
  | none => rw [htr] at h; simp at h
  | some tr =>
      rw [htr] at h
      simp only [Option.map_some', Option.some.injEq] at h
      unfold provide_recommendations
      rw [htr]
      simp [h]

/-- The full routine-message triage computation on the demo state: the step
completes the workflow yet the router dispatches the education handler. -/
theorem triage_step_routine_demo :
    (triage_agent_step true routineDemoState).workflow_complete = true ∧
    (triage_agent_step true routineDemoState).urgency_level = some "routine" ∧
    (triage_agent_step true routineDemoState).escalation_needed = false ∧
    (triage_agent_step true routineDemoState).next_agent =
      some "virtual_assistant_agent" ∧
    route_from_triage (triage_agent_step true routineDemoState) =
      "virtual_assistant_agent" ∧
    next_node WNode.triage (triage_agent_step true routineDemoState) =
      some WNode.virtualAssistant := by
  have hsa1 : (analyze_symptoms true routineDemoState).symptom_analysis =
      some (symptom_analysis_tool "hello") := rfl
  have hsa2 : (assess_risk (analyze_symptoms true routineDemoState)).symptom_analysis =
      some (symptom_analysis_tool "hello") := by
    rw [assess_risk_symptoms]; exact hsa1
  have hqval : min 10 ((symptom_analysis_tool "hello").severity_score *
      (patient_risk_assessment_tool.risk_score / 5)) = 13/5 := by
    have h1 : (symptom_analysis_tool "hello").severity_score = 2 := rfl
    have h2 : patient_risk_assessment_tool.risk_score = 13/2 := rfl
    rw [h1, h2, min_def, if_neg (by norm_num)]
    norm_num
  have hq2 : (assess_risk (analyze_symptoms true routineDemoState)).combined_risk_score =
      some (13/5 : ℚ) := by
    rw [assess_risk_score hsa1, hqval]
  have h5 : ¬ (5 : ℚ) ≤ 13/5 := by norm_num
  obtain ⟨hu, hna, hesc, htr⟩ := determine_urgency_routine hsa2 hq2 rfl rfl h5
  have herr1 : ¬ (analyze_symptoms true routineDemoState).error.isSome = true := by decide
  have herr2 : ¬ (assess_risk (analyze_symptoms true routineDemoState)).error.isSome =
      true := by
    rw [assess_risk_error]; decide
  have herr3 : ¬ (determine_urgency (assess_risk
      (analyze_symptoms true routineDemoState))).error.isSome = true := by
    rw [determine_urgency_error, assess_risk_error]; decide
  have hne : ¬ ((determine_urgency (assess_risk
      (analyze_symptoms true routineDemoState))).next_action ==
      some "escalate_emergency") = true := by
    rw [hna]; decide
  have hstep : triage_agent_step true routineDemoState =
      provide_recommendations (determine_urgency (assess_risk
        (analyze_symptoms true routineDemoState))) := by
    unfold triage_agent_step
    dsimp only
    rw [if_neg herr1, if_neg herr2, if_neg herr3, if_neg hne]
  have hnext := provide_recommendations_next_agent_routine htr
  have hu2 : (triage_agent_step true routineDemoState).urgency_level =
      some "routine" := by rw [hstep]; exact hu
  have hesc2 : (triage_agent_step true routineDemoState).escalation_needed = false := by
    rw [hstep]; exact hesc
  have hna2 : (triage_agent_step true routineDemoState).next_agent =
      some "virtual_assistant_agent" := by rw [hstep]; exact hnext
  have hroute : route_from_triage (triage_agent_step true routineDemoState) =
      "virtual_assistant_agent" := by
    unfold route_from_triage
    rw [hu2, hesc2, hna2]
    rfl
  refine ⟨by rw [hstep]; rfl, hu2, hesc2, hna2, hroute, ?_⟩
  unfold next_node
  rw [hroute]
  rfl

theorem supervisor_step_wc (o : Option String) (s : WState) :
    (supervisor_step o s).workflow_complete = s.workflow_complete := by
  unfold supervisor_step supervisor_error
  split
  · rfl
  · split <;> rfl

theorem supervisor_step_escalation (o : Option String) (s : WState) :
    (supervisor_step o s).escalation_needed = s.escalation_needed := by
  unfold supervisor_step supervisor_error
  split
  · rfl
  · split <;> rfl

theorem supervisor_step_rhr (o : Option String) (s : WState)
    (h : s.requires_human_review = true) :
    (supervisor_step o s).requires_human_review = true := by
  unfold supervisor_step supervisor_error
  split
  · rfl
  · split
    · rfl
    · exact h

theorem triage_step_rhr (b : Bool) (s : WState) (h : s.requires_human_review = true) :
    (triage_agent_step b s).requires_human_review = true := by
  unfold triage_agent_step
  dsimp only
  split
  · rfl
  · split
    · rfl
    · split
      · rfl
      · split
        · rfl
        · show (determine_urgency (assess_risk
            (analyze_symptoms b s))).requires_human_review = true
          rw [determine_urgency_rhr, assess_risk_rhr, analyze_symptoms_rhr]
          exact h

theorem analyze_appointment_rhr (b : Bool) (s : WState) :
    (analyze_appointment_request b s).requires_human_review = s.requires_human_review := by
  unfold analyze_appointment_request
  cases s.messages.getLast? <;> cases b <;> rfl

theorem analyze_appointment_escalation (b : Bool) (s : WState) :
    (analyze_appointment_request b s).escalation_needed = s.escalation_needed := by
  unfold analyze_appointment_request
  cases s.messages.getLast? <;> cases b <;> rfl

theorem appointment_step_wc (b : Bool) (s : WState) :
    (appointment_agent_step b s).workflow_complete = true := by
  unfold appointment_agent_step
  dsimp only
  split
  · rfl
  · split
    · rfl
    · split
      · rfl
      · split
        · rfl
        · split
          · rfl
          · split
            · rfl
            · rfl

theorem appointment_step_rhr (b : Bool) (s : WState)
    (h : s.requires_human_review = true) :
    (appointment_agent_step b s).requires_human_review = true := by
  have h1 : (analyze_appointment_request b s).requires_human_review = true := by
    rw [analyze_appointment_rhr]; exact h
  unfold appointment_agent_step
  dsimp only
  split
  · rfl
  · split
    · rfl
    · split
      · rfl
      · split
        · rfl
        · split
          · rfl
          · split
            · rfl
            · exact h1

theorem appointment_step_escalation (b : Bool) (s : WState) :
    (appointment_agent_step b s).escalation_needed = s.escalation_needed := by
  have h1 := analyze_appointment_escalation b s
  unfold appointment_agent_step
  dsimp only
  split
  · exact h1
  · split
    · exact h1
    · split
      · exact h1
      · split
        · exact h1
        · split
          · exact h1
          · split
            · exact h1
            · exact h1

theorem va_step_wc (s : WState) :
    (virtual_assistant_step s).workflow_complete = true := by
  unfold virtual_assistant_step
  dsimp only
  split
  · rfl
  · rfl

theorem create_summary_node_rhr (t : WState) :
    (create_summary_node t).requires_human_review = t.requires_human_review := rfl

theorem create_summary_node_escalation (t : WState) :
    (create_summary_node t).escalation_needed = t.escalation_needed := rfl

theorem va_step_rhr (s : WState) :
    (virtual_assistant_step s).requires_human_review = s.requires_human_review := by
  unfold virtual_assistant_step
  dsimp only
  split
  · rfl
  · rw [create_summary_node_rhr,
      apply_ite (fun t : WState => t.requires_human_review)]
    dsimp only
    rw [ite_self]

theorem va_step_escalation (s : WState) :
    (virtual_assistant_step s).escalation_needed = s.escalation_needed := by
  unfold virtual_assistant_step
  dsimp only
  split
  · rfl
  · rw [create_summary_node_escalation,
      apply_ite (fun t : WState => t.escalation_needed)]
    dsimp only
    rw [ite_self]

theorem docs_step_wc (b : Bool) (s : WState) :
    (clinical_docs_step b s).workflow_complete = true := by
  unfold clinical_docs_step handle_documentation_error
  dsimp only
  split
  · rfl
  · split <;> rfl

theorem docs_step_rhr (b : Bool) (s : WState) :
    (clinical_docs_step b s).requires_human_review = s.requires_human_review := by
  unfold clinical_docs_step handle_documentation_error
  dsimp only
  split
  · rfl
  · split <;> rfl

theorem docs_step_escalation (b : Bool) (s : WState) :
    (clinical_docs_step b s).escalation_needed = s.escalation_needed := by
  unfold clinical_docs_step handle_documentation_error
  dsimp only
  split
  · rfl
  · split <;> rfl

/-! ## Claim C6 -/

/-- Counterexample to C6: the triage step on a routine message sets
workflow_complete = true, and the workflow still dispatches the
virtual-assistant handler next, so a specialist handler executes on a state
whose workflow_complete flag is already true. -/
theorem c6_wc_then_handler_counterexample :
    (triage_agent_step true routineDemoState).workflow_complete = true ∧
    next_node WNode.triage (triage_agent_step true routineDemoState) =
      some WNode.virtualAssistant ∧
    isHandler WNode.virtualAssistant = true := by
  obtain ⟨h1, -, -, -, -, h6⟩ := triage_step_routine_demo
  exact ⟨h1, h6, rfl⟩

/-- C6 amended.  requires_human_review and workflow_complete are monotonic
across every handler step (each step either raises them or leaves them
untouched); escalation_needed is monotonic across every handler step other
than the triage urgency node, which overwrites it unconditionally — in a
session run from the initial state that node is only ever entered with the
flag down, so no observable reset occurs.  The second half of the original
claim is false: workflow_complete = true does not stop handler execution —
the routine triage path sets it true and the education handler still runs
(see the counterexample). -/
theorem c6_flags_monotone_but_wc_not_terminal (s : WState) (o : Option String)
    (b b2 b3 : Bool) (q : String) (pid : Option String) :
    ((s.requires_human_review = true →
        (supervisor_step o s).requires_human_review = true ∧
        (triage_agent_step b s).requires_human_review = true ∧
        (appointment_agent_step b2 s).requires_human_review = true ∧
        (virtual_assistant_step s).requires_human_review = true ∧
        (clinical_docs_step b3 s).requires_human_review = true ∧
        (completion_node s).requires_human_review = true) ∧
      (s.workflow_complete = true →
        (supervisor_step o s).workflow_complete = true ∧
        (triage_agent_step b s).workflow_complete = true ∧
        (appointment_agent_step b2 s).workflow_complete = true ∧
        (virtual_assistant_step s).workflow_complete = true ∧
        (clinical_docs_step b3 s).workflow_complete = true ∧
        (completion_node s).workflow_complete = true) ∧
      (s.escalation_needed = true →
        (supervisor_step o s).escalation_needed = true ∧
        (appointment_agent_step b2 s).escalation_needed = true ∧
        (virtual_assistant_step s).escalation_needed = true ∧
        (clinical_docs_step b3 s).escalation_needed = true ∧
        (completion_node s).escalation_needed = true)) ∧
    (initial_state q pid).escalation_needed = false ∧
    ((triage_agent_step true routineDemoState).workflow_complete = true ∧
      next_node WNode.triage (triage_agent_step true routineDemoState) =
        some WNode.virtualAssistant) := by
  refine ⟨⟨?_, ?_, ?_⟩, rfl, ?_⟩
  · intro h
    exact ⟨supervisor_step_rhr o s h, triage_step_rhr b s h,
      appointment_step_rhr b2 s h, by rw [va_step_rhr]; exact h,
      by rw [docs_step_rhr]; exact h, h⟩
  · intro h
    exact ⟨by rw [supervisor_step_wc]; exact h, triage_step_wc b s,
      appointment_step_wc b2 s, va_step_wc s, docs_step_wc b3 s, rfl⟩
  · intro h
    exact ⟨by rw [supervisor_step_escalation]; exact h,
      by rw [appointment_step_escalation]; exact h,
      by rw [va_step_escalation]; exact h,
      by rw [docs_step_escalation]; exact h, h⟩
  · obtain ⟨h1, -, -, -, -, h6⟩ := triage_step_routine_demo
    exact ⟨h1, h6⟩

/-- Witness for C6 (amended): all implications discharged on a state whose
three flags are already raised. -/
theorem c6_flags_monotone_but_wc_not_terminal_witness :
    (supervisor_step (some "AGENT: TRIAGE_AGENT") flagsOnState).requires_human_review =
      true ∧
    (triage_agent_step true flagsOnState).workflow_complete = true ∧
    (virtual_assistant_step flagsOnState).escalation_needed = true := by
  have h := c6_flags_monotone_but_wc_not_terminal flagsOnState
    (some "AGENT: TRIAGE_AGENT") true true true "q" none
  exact ⟨(h.1.1 rfl).1, (h.1.2.1 rfl).2.1, (h.1.2.2 rfl).2.2.1⟩

/-! ## Helper lemmas about the supervisor parse -/

theorem parse_decision_line_agent_mem {d : RoutingDecision} (line : String)
    (h : d.agent ∈ valid_agents) : (parse_decision_line d line).agent ∈ valid_agents := by
  unfold parse_decision_line
  dsimp only
  split
  · split
    · rename_i hmem
      exact hmem
    · exact h
  · split
    · split
      · exact h
      · exact h
    · split
      · exact h
      · split
        · exact h
        · exact h

theorem foldl_parse_agent_mem (lines : List String) (d : RoutingDecision)
    (h : d.agent ∈ valid_agents) :
    (lines.foldl parse_decision_line d).agent ∈ valid_agents := by
  induction lines generalizing d with
  | nil => exact h
  | cons l ls ih => exact ih _ (parse_decision_line_agent_mem l h)

/-- Every decision the parse can produce carries one of the four uppercase
labels. -/
theorem parse_routing_response_agent_mem (r : String) :
    (parse_routing_response r).agent ∈ valid_agents := by
  have hd := foldl_parse_agent_mem (splitLines (trimStr r)) default_decision
    (by simp [default_decision, valid_agents])
  unfold parse_routing_response
  dsimp only
  split
  · split
    · simp [valid_agents]
    · split
      · simp [valid_agents]
      · split
        · simp [valid_agents]
        · exact hd
  · exact hd

/-- None of the uppercase labels is one of the outer workflow node names, so
the supervisor router falls through to "end". -/
theorem route_from_supervisor_of_parse {s : WState} {a : String}
    (hs : s.next_agent = some a) (ha : a ∈ valid_agents) :
    route_from_supervisor s = "end" := by
  unfold route_from_supervisor
  rw [hs]
  simp only [valid_agents, List.mem_cons, List.not_mem_nil, or_false] at ha
  rcases ha with rfl | rfl | rfl | rfl <;> decide

theorem parse_decision_line_no_agent {d : RoutingDecision} {l : String}
    (h : (startsWithStr (trimStr l) "AGENT:" &&
      valid_agents.contains (trimStr (dropStr (trimStr l) 6))) = false) :
    (parse_decision_line d l).agent = d.agent ∧
    (parse_decision_line d l).confidence = d.confidence := by
  unfold parse_decision_line
  dsimp only
  by_cases h1 : startsWithStr (trimStr l) "AGENT:" = true
  · rw [if_pos h1]
    have h2 : ¬ trimStr (dropStr (trimStr l) 6) ∈ valid_agents := by
      rw [h1] at h
      simp only [Bool.true_and] at h
      simpa using h
    rw [if_neg h2]
    exact ⟨rfl, rfl⟩
  · rw [if_neg h1]
    split
    · split
      · exact ⟨rfl, rfl⟩
      · exact ⟨rfl, rfl⟩
    · split
      · exact ⟨rfl, rfl⟩
      · split
        · exact ⟨rfl, rfl⟩
        · exact ⟨rfl, rfl⟩

theorem foldl_parse_no_agent (lines : List String) (d : RoutingDecision)
    (h : ∀ l ∈ lines, (startsWithStr (trimStr l) "AGENT:" &&
      valid_agents.contains (trimStr (dropStr (trimStr l) 6))) = false) :
    (lines.foldl parse_decision_line d).agent = d.agent ∧
    (lines.foldl parse_decision_line d).confidence = d.confidence := by
  induction lines generalizing d with
  | nil => exact ⟨rfl, rfl⟩
  | cons l ls ih =>
      obtain ⟨ha, hc⟩ := parse_decision_line_no_agent (d := d) (h l (by simp))
      obtain ⟨ha2, hc2⟩ := ih (parse_decision_line d l) (fun x hx => h x (by simp [hx]))
      exact ⟨ha2.trans ha, hc2.trans hc⟩

/-! ## Claim C3 -/

/-- Counterexample to C3: for the oracle reply "AGENT: SOMEBOT" (a label
outside the closed set, no fallback keyword), the parse does map the
decision to VIRTUAL_ASSISTANT with the low-confidence marker 0.5 — but the
engine does NOT route to the education handler: `_route_from_supervisor`
recognizes only the lowercase node names, so the run goes to the terminal
END node, not to the virtual-assistant node. -/
theorem c3_unrecognized_label_counterexample :
    (parse_routing_response "AGENT: SOMEBOT").agent = "VIRTUAL_ASSISTANT" ∧
    (parse_routing_response "AGENT: SOMEBOT").confidence = ratHalf ∧
    (supervisor_step (some "AGENT: SOMEBOT")
      (initial_state "I need help" none)).next_agent = some "VIRTUAL_ASSISTANT" ∧
    next_node WNode.supervisor (supervisor_step (some "AGENT: SOMEBOT")
      (initial_state "I need help" none)) = some WNode.terminalEnd ∧
    WNode.terminalEnd ≠ WNode.virtualAssistant := by decide

/-- C3 amended.  Whatever the oracle replies, the parse yields one of the
four uppercase labels, with VIRTUAL_ASSISTANT (confidence 0.5, the default
low-confidence marker) whenever no line carries a recognized AGENT tag and
no fallback keyword occurs in the reply; the engine then routes the decision
to the terminal end node — without raising (the router is total) and without
looping (the end node has no successor) — rather than to the education
handler, because the uppercase labels are not among the engine node
names. -/
theorem c3_unrecognized_label_routes_end (r : String) (s : WState)
    (hs : s.next_agent = some (parse_routing_response r).agent) :
    (parse_routing_response r).agent ∈ valid_agents ∧
    route_from_supervisor s = "end" ∧
    next_node WNode.supervisor s = some WNode.terminalEnd ∧
    (∀ s2, next_node WNode.terminalEnd s2 = none) ∧
    ((∀ l ∈ splitLines (trimStr r), (startsWithStr (trimStr l) "AGENT:" &&
        valid_agents.contains (trimStr (dropStr (trimStr l) 6))) = false) →
      fallback_triage_words.any (fun w => containsStr (upperStr r) w) = false →
      fallback_appointment_words.any (fun w => containsStr (upperStr r) w) = false →
      fallback_docs_words.any (fun w => containsStr (upperStr r) w) = false →
      (parse_routing_response r).agent = "VIRTUAL_ASSISTANT" ∧
      (parse_routing_response r).confidence = ratHalf) := by
  have hmem := parse_routing_response_agent_mem r
  have hroute := route_from_supervisor_of_parse hs hmem
  refine ⟨hmem, hroute, ?_, fun s2 => rfl, ?_⟩
  · unfold next_node
    rw [hroute]
    rfl
  · intro hline hkw1 hkw2 hkw3
    obtain ⟨ha, hc⟩ := foldl_parse_no_agent (splitLines (trimStr r)) default_decision hline
    unfold parse_routing_response
    dsimp only
    rw [if_pos ⟨ha.trans rfl, hc.trans rfl⟩]
    rw [if_neg (by rw [hkw1]; exact Bool.false_ne_true),
        if_neg (by rw [hkw2]; exact Bool.false_ne_true),
        if_neg (by rw [hkw3]; exact Bool.false_ne_true)]
    exact ⟨ha.trans rfl, hc.trans rfl⟩

/-- Witness for C3 (amended), at the counterexample reply. -/
theorem c3_unrecognized_label_routes_end_witness :
    route_from_supervisor (supervisor_step (some "AGENT: SOMEBOT")
      (initial_state "I need help" none)) = "end" ∧
    (parse_routing_response "AGENT: SOMEBOT").agent = "VIRTUAL_ASSISTANT" := by
  have h := c3_unrecognized_label_routes_end "AGENT: SOMEBOT"
    (supervisor_step (some "AGENT: SOMEBOT") (initial_state "I need help" none))
    (by decide)
  exact ⟨h.2.1, (h.2.2.2.2 (by decide) (by decide) (by decide) (by decide)).1⟩

/-! ## Helper lemmas about the outer routing graph -/

theorem next_node_rank {n n2 : WNode} (s : WState) (h : next_node n s = some n2) :
    nodeRank n2 < nodeRank n := by
  cases n <;> simp only [next_node] at h <;> try split at h
  all_goals first
    | (injection h with h2; subst h2; decide)
    | simp at h

theorem next_node_handlerBound {n n2 : WNode} (s : WState)
    (h : next_node n s = some n2) :
    (isHandler n).toNat + handlerBound n2 ≤ handlerBound n := by
  cases n <;> simp only [next_node] at h <;> try split at h
  all_goals first
    | (injection h with h2; subst h2; decide)
    | simp at h

theorem next_node_ne_supervisor (n : WNode) (s : WState) :
    next_node n s ≠ some WNode.supervisor := by
  intro h
  have hlt := next_node_rank s h
  cases n <;> simp [nodeRank] at hlt

theorem chain_length_le {l : List WNode} {n : WNode}
    (h : List.Chain WStep n l) : l.length ≤ nodeRank n := by
  induction l generalizing n with
  | nil => simp
  | cons b t ih =>
      cases h with
      | cons hab hrest =>
          obtain ⟨s, hs⟩ := hab
          have hlt := next_node_rank s hs
          have hrec := ih hrest
          simp only [List.length_cons]
          omega

theorem chain_handlers_le {l : List WNode} {n : WNode}
    (h : List.Chain WStep n l) :
    (isHandler n).toNat + (l.filter (fun x => isHandler x)).length ≤ handlerBound n := by
  induction l generalizing n with
  | nil => cases n <;> simp [isHandler, handlerBound]
  | cons b t ih =>
      cases h with
      | cons hab hrest =>
          obtain ⟨s, hs⟩ := hab
          have hstep := next_node_handlerBound s hs
          have hrec := ih hrest
          cases hb : isHandler b <;>
            simp only [List.filter_cons, hb, List.length_cons, if_pos, if_neg,
              Bool.false_eq_true, ite_false, ite_true] <;>
            (rw [hb] at hrec; simp at hrec ⊢; omega)

theorem chain_not_supervisor {l : List WNode} {n : WNode}
    (h : List.Chain WStep n l) : WNode.supervisor ∉ l := by
  induction l generalizing n with
  | nil => simp
  | cons b t ih =>
      cases h with
      | cons hab hrest =>
          obtain ⟨s, hs⟩ := hab
          simp only [List.mem_cons, not_or]
          refine ⟨?_, ih hrest⟩
          intro heq
          subst heq
          exact next_node_ne_supervisor n s hs

/-! ## Claim C7 -/

/-- C7.  The outer routing graph is acyclic — the rank function strictly
decreases along every edge and no edge targets the supervisor — so every
session run terminates: any chain of hops from the supervisor visits at most
5 further nodes (including the bookkeeping completion node and the END
marker) before stopping, and at most 3 of them are specialist handlers
(hops, in the sense of handler executions after the supervisor step). -/
theorem c7_graph_acyclic_terminates (l : List WNode)
    (h : List.Chain WStep WNode.supervisor l) :
    WNode.supervisor ∉ l ∧
    l.length ≤ 5 ∧
    (l.filter (fun x => isHandler x)).length ≤ 3 ∧
    (∀ n s n2, next_node n s = some n2 → nodeRank n2 < nodeRank n) := by
  refine ⟨chain_not_supervisor h, ?_, ?_,
    fun n s n2 hst => next_node_rank s hst⟩
  · simpa [nodeRank] using chain_length_le h
  · simpa [isHandler, handlerBound] using chain_handlers_le h

/-- Witness for C7: the longest realizable trace — triage, appointment,
education, completion, END — satisfies the bounds. -/
theorem c7_graph_acyclic_terminates_witness :
    List.Chain WStep WNode.supervisor demoTrace ∧
    demoTrace.length ≤ 5 ∧
    (demoTrace.filter (fun x => isHandler x)).length ≤ 3 ∧
    WNode.supervisor ∉ demoTrace := by
  have hchain : List.Chain WStep WNode.supervisor demoTrace := by
    refine List.Chain.cons ⟨stateToTriage, by decide⟩ ?_
    refine List.Chain.cons ⟨stateToAppointment, by decide⟩ ?_
    refine List.Chain.cons ⟨stateToVA, by decide⟩ ?_
    refine List.Chain.cons ⟨initial_state "q" none, by decide⟩ ?_
    exact List.Chain.cons ⟨initial_state "q" none, by decide⟩ List.Chain.nil
  have h := c7_graph_acyclic_terminates demoTrace hchain
  exact ⟨hchain, h.2.1, h.2.2.1, h.1⟩

end CardioAgent
